import Mathlib

/-!
Shallow embedding of the sprobot profile persistence pipeline
(`src/sprobot/backend.py`, `src/sprobot/commands.py`, `src/sprobot/templates.py`).

Modelling conventions:
* Python `Dict[str, str]` profile documents become insertion-ordered association
  lists with unique keys (`Doc`); `d[k] = v` keeps the position of an existing
  key and appends a new one, `del d[k]` removes the entry, matching CPython
  dict semantics.
* The S3 object store is a map from object key (the full path string) to the
  stored document; `json.dumps`/`json.loads` round-tripping of a flat string
  map is modelled as the identity, while the exact serialized body produced by
  `json.dumps` is modelled separately by `jsonDumps` and recorded on the
  `put_object` network event.
* The LRU cache (`cachetools.LRUCache(maxsize=500)`) is a list with the most
  recently used entry first; a hit moves the entry to the front, an insert
  evicts the last entry when the bound is exceeded.
* All network I/O is recorded in an event list; the composite behaviour of the
  outbound image fetch (`httpx`) and the content sniff (`filetype.guess`) on
  the fetched bytes is abstracted into an oracle `String → FetchOutcome`
  mapping the requested URL to what the fetch-and-sniff observed.
* Exceptions become `Except`/explicit results: `KeyError` and other Python
  exception classes are the constructors of `PyErr`.
-/

namespace Sprobot

/-! ### Association lists (CPython dict semantics) -/

/-- Lookup of the first (and, for the lists we build, only) binding of `k`. -/
def assocGet {κ β : Type} [DecidableEq κ] (l : List (κ × β)) (k : κ) : Option β :=
  match l with
  | [] => none
  | (k', v) :: rest => if k' = k then some v else assocGet rest k

/-- CPython `d[k] = v`: replace in place when the key exists, append otherwise. -/
def assocSet {κ β : Type} [DecidableEq κ] (l : List (κ × β)) (k : κ) (v : β) :
    List (κ × β) :=
  match l with
  | [] => [(k, v)]
  | (k', v') :: rest =>
    if k' = k then (k', v) :: rest else (k', v') :: assocSet rest k v

/-- CPython `del d[k]` on a unique-key list: drop the first binding of `k`. -/
def assocRemove {κ β : Type} [DecidableEq κ] (l : List (κ × β)) (k : κ) :
    List (κ × β) :=
  match l with
  | [] => []
  | (k', v') :: rest =>
    if k' = k then rest else (k', v') :: assocRemove rest k

/-- Profile document: the `Dict[str, str]` field map of one user's profile. -/
abbrev Doc := List (String × String)

def dictGet (d : Doc) (k : String) : Option String := assocGet d k

def dictSet (d : Doc) (k v : String) : Doc := assocSet d k v

def dictDel (d : Doc) (k : String) : Doc := assocRemove d k

/-- CPython `k in d`. -/
def dictContains (d : Doc) (k : String) : Bool := (dictGet d k).isSome

/-! ### Templates (`templates.py`; the discord-only `Style` attribute of a
field is a UI enum with no influence on persistence and is omitted). -/

structure TField where
  Name : String
  Placeholder : String
deriving Repr, DecidableEq

structure Template where
  Name : String
  ShortName : String
  Description : String
  Fields : List TField
  Image : TField
deriving Repr, DecidableEq

/-- `ProfileTemplate` from `templates.py`. -/
def ProfileTemplate : Template :=
  ⟨"Coffee Setup", "profile", "Edit or Create your profile",
   [⟨"Machine", "A description of your machine(s)."⟩,
    ⟨"Grinder", "A description of your grinder(s)."⟩,
    ⟨"Favorite Beans", "What are your favorite beans / roasts?"⟩,
    ⟨"Pronouns", "What are your preferred pronouns?"⟩,
    ⟨"Location", "Where are you located?"⟩],
   ⟨"Gear Picture", "Please put a link to an image of your machine here!"⟩⟩

/-- `RoasterTemplate` from `templates.py`. -/
def RoasterTemplate : Template :=
  ⟨"Roasting Setup", "roaster", "Edit or Create your profile",
   [⟨"Roasting Machine", "A description of your machine(s)."⟩,
    ⟨"Favorite Greens", "What are your favorite greens to work with?"⟩,
    ⟨"Website", "Link to your website."⟩,
    ⟨"Location", "What are you located?"⟩],
   ⟨"Gear Picture", "Please put a link to an image of your machine here!"⟩⟩

/-! ### Python string and path primitives -/

/-- CPython `s.startswith(pre)`. -/
def pyStartsWith (s pre : String) : Bool := pre.data.isPrefixOf s.data

/-- CPython `s.endswith(suf)`. -/
def pyEndsWith (s suf : String) : Bool := suf.data.isSuffixOf s.data

/-- One step of CPython `posixpath.join` (`os.path.join` on the deployment
platform): an absolute component restarts the path, otherwise a `/` separator
is inserted unless one is already present. -/
def ospathJoin1 (acc b : String) : String :=
  if pyStartsWith b "/" then b
  else if acc = "" ∨ pyEndsWith acc "/" then acc ++ b
  else acc ++ "/" ++ b

def ospathJoin (first : String) (parts : List String) : String :=
  parts.foldl ospathJoin1 first

/-- `os.path.join("profiles", str(guild_id), template.Name, f"{user_id}.json")`,
the document key used by `fetch_profile`, `save_profile` and `delete_profile`. -/
def profileS3Path (guild_id : Nat) (templateName : String) (user_id : Nat) : String :=
  ospathJoin "profiles" [Nat.repr guild_id, templateName, Nat.repr user_id ++ ".json"]

/-- `os.path.join("images", str(guild_id), template.Name,
f"{user_id}.{kind.extension}")`, the object key of a relocated image. -/
def imageS3Path (guild_id : Nat) (templateName : String) (user_id : Nat)
    (ext : String) : String :=
  ospathJoin "images"
    [Nat.repr guild_id, templateName, Nat.repr user_id ++ "." ++ ext]

/-! ### `json.dumps` on a flat `Dict[str, str]` (default options:
separators `", "` and `": "`, `ensure_ascii=True`). -/

/-- Lowercase hex digit, as used by `json.dumps` in `\uXXXX` escapes. -/
def hexDigitLower (n : Nat) : Char :=
  if n = 0 then '0' else if n = 1 then '1' else if n = 2 then '2'
  else if n = 3 then '3' else if n = 4 then '4' else if n = 5 then '5'
  else if n = 6 then '6' else if n = 7 then '7' else if n = 8 then '8'
  else if n = 9 then '9' else if n = 10 then 'a' else if n = 11 then 'b'
  else if n = 12 then 'c' else if n = 13 then 'd' else if n = 14 then 'e'
  else 'f'

def uEscape (n : Nat) : List Char :=
  ['\\', 'u', hexDigitLower (n / 4096 % 16), hexDigitLower (n / 256 % 16),
   hexDigitLower (n / 16 % 16), hexDigitLower (n % 16)]

/-- Escaping of one character by `json.dumps` with `ensure_ascii=True`: short
escapes for the JSON control shorthands, `\uXXXX` (with a surrogate pair above
the BMP) for everything outside `0x20`–`0x7e`, the quote and the backslash. -/
def jsonEscapeChar (c : Char) : List Char :=
  if c = '"' then ['\\', '"']
  else if c = '\\' then ['\\', '\\']
  else if c = '\n' then ['\\', 'n']
  else if c = '\r' then ['\\', 'r']
  else if c = '\t' then ['\\', 't']
  else if c = Char.ofNat 8 then ['\\', 'b']
  else if c = Char.ofNat 12 then ['\\', 'f']
  else if 0x20 ≤ c.toNat ∧ c.toNat ≤ 0x7e then [c]
  else if c.toNat < 0x10000 then uEscape c.toNat
  else
    let v := c.toNat - 0x10000
    uEscape (0xD800 + v / 1024) ++ uEscape (0xDC00 + v % 1024)

def jsonEscape (s : String) : String :=
  ⟨s.data.flatMap jsonEscapeChar⟩

/-- `json.dumps` of a string-to-string map, in insertion order. -/
def jsonDumps (d : Doc) : String :=
  "\x7b" ++
    String.intercalate ", "
      (d.map fun kv => "\"" ++ jsonEscape kv.1 ++ "\": \"" ++ jsonEscape kv.2 ++ "\"")
    ++ "\x7d"

/-! ### `urllib.parse.quote` and `urljoin` -/

def hexDigitUpper (n : Nat) : Char :=
  if n = 0 then '0' else if n = 1 then '1' else if n = 2 then '2'
  else if n = 3 then '3' else if n = 4 then '4' else if n = 5 then '5'
  else if n = 6 then '6' else if n = 7 then '7' else if n = 8 then '8'
  else if n = 9 then '9' else if n = 10 then 'A' else if n = 11 then 'B'
  else if n = 12 then 'C' else if n = 13 then 'D' else if n = 14 then 'E'
  else 'F'

/-- UTF-8 bytes of a scalar value, as a list of byte values. -/
def utf8Bytes (c : Char) : List Nat :=
  let n := c.toNat
  if n < 0x80 then [n]
  else if n < 0x800 then [0xC0 + n / 64, 0x80 + n % 64]
  else if n < 0x10000 then [0xE0 + n / 4096, 0x80 + n / 64 % 64, 0x80 + n % 64]
  else [0xF0 + n / 262144, 0x80 + n / 4096 % 64, 0x80 + n / 64 % 64, 0x80 + n % 64]

/-- `urllib.parse.quote(s)`: ASCII letters, digits, `_.-~` and the default
safe character `/` pass through; every other character is percent-encoded
byte-by-byte in uppercase hex. -/
def pyQuote (s : String) : String :=
  ⟨s.data.flatMap fun c =>
    if c.isAlphanum ∨ c = '_' ∨ c = '.' ∨ c = '-' ∨ c = '~' ∨ c = '/' then [c]
    else (utf8Bytes c).flatMap fun b => ['%', hexDigitUpper (b / 16), hexDigitUpper (b % 16)]⟩

/-- Model of `urllib.parse.urljoin` restricted to the shapes occurring in
`backend.py`: an absolute base URL ending in `/` (or a `bucket/` prefix used as
base for a second join) combined with a relative reference that has no `.` or
`..` segments, where RFC 3986 resolution coincides with concatenation. -/
def pyUrljoin (base rel : String) : String := base ++ rel

/-- `SPROBOT_WEB_ENDPOINT` constant from `backend.py`. -/
def SPROBOT_WEB_ENDPOINT : String := "http://bot.espressoaf.com/"

/-! ### External world: exceptions, fetch-and-sniff oracle, network events -/

/-- Python exception classes relevant to the pipeline: `KeyError` (used both
for missing configuration and, normalized from `NoSuchKey`, for a missing
profile) versus any other exception class (generic I/O/storage failure). -/
inductive PyErr where
  | keyError (msg : String)
  | otherError (msg : String)
deriving Repr, DecidableEq

/-- Result of `filetype.guess` on the fetched bytes: a mime type and the
canonical file extension. -/
structure SniffKind where
  mime : String
  extension : String
deriving Repr, DecidableEq

/-- Composite outcome of streaming a URL with `httpx` and sniffing the bytes
with `filetype.guess`: either the fetch raised, or it produced bytes whose
sniff gave `none` or some `SniffKind`. An HTTP 4xx/5xx does not raise in
`httpx.stream`; it delivers the error page's bytes, whose sniff fails. -/
inductive FetchOutcome where
  | exn
  | content (kind : Option SniffKind)

/-- Network calls the backend performs, in order. -/
inductive NetEvent where
  | httpGet (url : String)
  | s3Upload (bucket key : String)
  | s3PutObjectAcl (bucket key : String)
  | s3GetObject (bucket key : String)
  | s3PutObject (bucket key body : String)
  | s3DeleteObject (bucket key : String)
deriving Repr, DecidableEq

/-! ### Configuration (`S3Backend.__init__`) -/

structure S3Config where
  sprobot_s3_key : String
  sprobot_s3_secret : String
  sprobot_s3_endpoint : String
  sprobot_s3_bucket : String
deriving Repr, DecidableEq

/-- `os.environ.get(k, "")`. -/
def envGet (env : List (String × String)) (k : String) : String :=
  match assocGet env k with
  | some v => v
  | none => ""

/-- `S3Backend.__init__`: reads the four environment variables in order and
raises `KeyError` for the first missing or empty one. (The Python `KeyError`
carries the message as its first argument.) -/
def S3Backend_init (env : List (String × String)) : Except PyErr S3Config :=
  let key := envGet env "SPROBOT_S3_KEY"
  if key = "" then .error (.keyError "SPROBOT_S3_KEY env var is undefined!")
  else
    let secret := envGet env "SPROBOT_S3_SECRET"
    if secret = "" then .error (.keyError "SPROBOT_S3_SECRET env var is undefined!")
    else
      let endpoint := envGet env "SPROBOT_S3_ENDPOINT"
      if endpoint = "" then .error (.keyError "SPROBOT_S3_ENDPOINT env var is undefined!")
      else
        let bucket := envGet env "SPROBOT_S3_BUCKET"
        if bucket = "" then .error (.keyError "SPROBOT_S3_BUCKET env var is undefined!")
        else .ok ⟨key, secret, endpoint, bucket⟩

/-! ### Cache (`cachetools.LRUCache(maxsize=500)`, keyed by
`cachetools.keys.hashkey(template.Name, guild_id, user_id)`) and object store.

The cache list is ordered most-recently-used first. The value type is a
parameter so the same operations serve the value-semantics model (`Doc`
entries) and the heap model (`Nat` object references, as CPython stores
references). -/

abbrev CacheKey := String × Nat × Nat

def cacheMaxSize : Nat := 500

def cacheLookup {β : Type} (c : List (CacheKey × β)) (k : CacheKey) : Option β :=
  assocGet c k

/-- A `LRUCache` hit (`__getitem__` via `.get`) moves the entry to the
most-recently-used position; a miss leaves the cache unchanged. -/
def cacheTouch {β : Type} (c : List (CacheKey × β)) (k : CacheKey) :
    List (CacheKey × β) :=
  match cacheLookup c k with
  | none => c
  | some v => (k, v) :: assocRemove c k

/-- `LRUCache.__setitem__`: insert at the most-recently-used position,
evicting the least-recently-used entry when the bound is exceeded. -/
def cachePut {β : Type} (c : List (CacheKey × β)) (k : CacheKey) (v : β) :
    List (CacheKey × β) :=
  let c' := (k, v) :: assocRemove c k
  if cacheMaxSize < c'.length then c'.dropLast else c'

/-- `del self.profile_cache[cache_key]` wrapped in `try/except KeyError`. -/
def cacheDel {β : Type} (c : List (CacheKey × β)) (k : CacheKey) :
    List (CacheKey × β) :=
  assocRemove c k

/-- In-process backend state: the S3 bucket contents for profile documents
(object key to stored field map, with JSON round-tripping of a flat string map
modelled as the identity) together with the read cache and its hit/miss
counters (both initialized to 1 in `__init__`). -/
structure BackendState where
  store : List (String × Doc)
  cache : List (CacheKey × Doc)
  hits : Nat
  misses : Nat
deriving Repr, DecidableEq

def initialBackendState : BackendState := ⟨[], [], 1, 1⟩

/-! ### Backend operations (`S3Backend`, value-semantics model) -/

/-- `S3Backend._get_from_cache`: bump the total counter, look the key up,
count a miss when the entry is absent or falsy (an empty dict), and return a
deep copy of the entry (a value, in this model). The hit moves the entry to
the most-recently-used position. -/
def get_from_cache (s : BackendState) (k : CacheKey) :
    Option Doc × BackendState :=
  let profile := cacheLookup s.cache k
  let missed : Bool := profile = none ∨ profile = some []
  (profile,
   ⟨s.store, cacheTouch s.cache k, s.hits + 1,
    if missed then s.misses + 1 else s.misses⟩)

/-- `S3Backend.fetch_profile`: serve a truthy cached document, otherwise read
`profiles/{guild}/{template.Name}/{user}.json` from S3, populate the cache and
return the document; `NoSuchKey` is normalized to
`KeyError("User profile not found")`. -/
def fetch_profile (cfg : S3Config) (template : Template) (guild_id user_id : Nat)
    (s : BackendState) : Except PyErr Doc × BackendState × List NetEvent :=
  let cache_key : CacheKey := (template.Name, guild_id, user_id)
  let (profile?, s1) := get_from_cache s cache_key
  match profile? with
  | some profile =>
    if profile ≠ [] then (.ok profile, s1, [])
    else
      -- falsy cached value: fall through to the S3 read
      let s3_path := profileS3Path guild_id template.Name user_id
      match assocGet s1.store s3_path with
      | some res =>
        (.ok res, ⟨s1.store, cachePut s1.cache cache_key res, s1.hits, s1.misses⟩,
         [.s3GetObject cfg.sprobot_s3_bucket s3_path])
      | none =>
        (.error (.keyError "User profile not found"), s1,
         [.s3GetObject cfg.sprobot_s3_bucket s3_path])
  | none =>
    let s3_path := profileS3Path guild_id template.Name user_id
    match assocGet s1.store s3_path with
    | some res =>
      (.ok res, ⟨s1.store, cachePut s1.cache cache_key res, s1.hits, s1.misses⟩,
       [.s3GetObject cfg.sprobot_s3_bucket s3_path])
    | none =>
      (.error (.keyError "User profile not found"), s1,
       [.s3GetObject cfg.sprobot_s3_bucket s3_path])

/-- User-facing message when the image fetch raised. -/
def fetchFailedMsg : String :=
  "Unable to fetch from the URL provided, make sure it's an image and try again. The rest of your profile has been saved."

/-- User-facing message when `filetype.guess` recognized nothing. -/
def unknownTypeMsg : String :=
  "Unable to determine what type of file you linked. The rest of your profile has been saved."

/-- User-facing message when the sniffed mime type is not an image. -/
def nonImageMsg (mime : String) : String :=
  "It looks like you uploaded a " ++ mime ++
  ", but we can only use images. The rest of your profile has been saved. If this looked like a gif, discord probably used a mp4."

/-- `S3Backend._get_image_s3_url`: returns `(error_for_user, image_url)` — an
empty error string means no warning — together with the network calls made.
The profile is only read, never mutated, by this step. -/
def get_image_s3_url (cfg : S3Config) (template : Template)
    (guild_id user_id : Nat) (profile : Doc) (world : String → FetchOutcome) :
    (String × Option String) × List NetEvent :=
  match dictGet profile template.Image.Name with
  | none => (("", none), [])
  | some maybeURL =>
    if maybeURL = "" then (("", none), [])
    else if pyStartsWith maybeURL cfg.sprobot_s3_endpoint then
      (("", some maybeURL), [])
    else
      match world maybeURL with
      | .exn => ((fetchFailedMsg, none), [.httpGet maybeURL])
      | .content none => ((unknownTypeMsg, none), [.httpGet maybeURL])
      | .content (some kind) =>
        if pyStartsWith kind.mime "image/" then
          let s3_path := imageS3Path guild_id template.Name user_id kind.extension
          let s3_final_url :=
            pyUrljoin cfg.sprobot_s3_endpoint
              (pyUrljoin (cfg.sprobot_s3_bucket ++ "/") (pyQuote s3_path))
          (("", some s3_final_url),
           [.httpGet maybeURL, .s3Upload cfg.sprobot_s3_bucket s3_path,
            .s3PutObjectAcl cfg.sprobot_s3_bucket s3_path])
        else
          ((nonImageMsg kind.mime, none), [.httpGet maybeURL])

/-- The document `save_profile` persists: the caller's dict after the in-place
image-field update (`profile[Image.Name] = image_url` when the relocation
produced a truthy URL, `del profile[Image.Name]` ignoring `KeyError`
otherwise). -/
def savePersistedDoc (template : Template) (profile : Doc)
    (image_url : Option String) : Doc :=
  match image_url with
  | some url =>
    if url ≠ "" then dictSet profile template.Image.Name url
    else dictDel profile template.Image.Name
  | none => dictDel profile template.Image.Name

/-- `S3Backend.save_profile`: relocate the image, mutate the caller's dict
accordingly, `put_object` the JSON body under the profile key, update the
cache with the (same) document and return `(web_url, error_for_user)`.
The returned `Doc` is the caller's dict after mutation. -/
def save_profile (cfg : S3Config) (template : Template) (guild_id user_id : Nat)
    (profile : Doc) (world : String → FetchOutcome) (s : BackendState) :
    (String × String) × Doc × BackendState × List NetEvent :=
  let ((error_for_user, image_url), evImg) :=
    get_image_s3_url cfg template guild_id user_id profile world
  let profile2 := savePersistedDoc template profile image_url
  let s3_path := profileS3Path guild_id template.Name user_id
  let cache_key : CacheKey := (template.Name, guild_id, user_id)
  let web_url :=
    pyUrljoin SPROBOT_WEB_ENDPOINT
      (pyUrljoin (cfg.sprobot_s3_bucket ++ "/") (pyQuote s3_path))
  ((web_url, error_for_user), profile2,
   ⟨assocSet s.store s3_path profile2, cachePut s.cache cache_key profile2,
    s.hits, s.misses⟩,
   evImg ++ [.s3PutObject cfg.sprobot_s3_bucket s3_path (jsonDumps profile2)])

/-- `S3Backend.delete_profile`: evict the cache entry (ignoring `KeyError`)
and `delete_object` the profile key (idempotent at S3 level). -/
def delete_profile (cfg : S3Config) (template : Template)
    (guild_id user_id : Nat) (s : BackendState) :
    BackendState × List NetEvent :=
  let cache_key : CacheKey := (template.Name, guild_id, user_id)
  let s3_path := profileS3Path guild_id template.Name user_id
  (⟨assocRemove s.store s3_path, cacheDel s.cache cache_key, s.hits, s.misses⟩,
   [.s3DeleteObject cfg.sprobot_s3_bucket s3_path])

/-! ### Command layer (`commands.py`) -/

/-- `DeleteState` enum from `commands.py`. -/
inductive DeleteState where
  | Called
  | WaitForConfirm
  | Confirmed
  | Cancelled
  | Deleted
  | Error
deriving Repr, DecidableEq

/-- Confirmed branch of `DeleteProfile.delete_profile_image`: fetch the
profile (a `KeyError` means already deleted), drop the image key if present,
then either re-save the remaining document or, when nothing is left, delete
the whole profile. Returns the new state, the final `DeleteState` and the
warning from the inner save (empty when none). -/
def delete_profile_image (cfg : S3Config) (template : Template)
    (guild_id user_id : Nat) (world : String → FetchOutcome)
    (s : BackendState) : BackendState × DeleteState × String × List NetEvent :=
  match fetch_profile cfg template guild_id user_id s with
  | (.error _, s1, ev) => (s1, .Deleted, "", ev)
  | (.ok user_profile, s1, ev) =>
    let user_profile2 :=
      if user_profile ≠ [] ∧ dictContains user_profile template.Image.Name then
        dictDel user_profile template.Image.Name
      else user_profile
    if user_profile2 ≠ [] then
      let ((_, err), _, s2, ev2) :=
        save_profile cfg template guild_id user_id user_profile2 world s1
      if err ≠ "" then (s2, .Error, err, ev ++ ev2)
      else (s2, .Deleted, err, ev ++ ev2)
    else
      let (s2, ev2) := delete_profile cfg template guild_id user_id s1
      (s2, .Deleted, "", ev ++ ev2)

/-- `EditProfile.on_submit`, document-building part: every `TextInput` child's
`(label, value)` pair is written into the new dict verbatim — empty strings
included — and the image URL remembered at modal-construction time is re-added
when truthy. -/
def on_submit_built_profile (children : List (String × String))
    (saved_image_url : Option String) (imageFieldName : String) : Doc :=
  let base := children.foldl (fun d lv => dictSet d lv.1 lv.2) []
  match saved_image_url with
  | some url => if url ≠ "" then dictSet base imageFieldName url else base
  | none => base

/-! ### Operation traces over one backend -/

/-- External operations of the pipeline, as invoked by the command layer. -/
inductive Op where
  | opSave (template : Template) (guild_id user_id : Nat) (profile : Doc)
      (world : String → FetchOutcome)
  | opFetch (template : Template) (guild_id user_id : Nat)
  | opDelete (template : Template) (guild_id user_id : Nat)
  | opDeleteImage (template : Template) (guild_id user_id : Nat)
      (world : String → FetchOutcome)

/-- Whether the operation writes (saves or deletes); fetches are read-only. -/
def Op.isMutation : Op → Bool
  | .opSave _ _ _ _ _ => true
  | .opFetch _ _ _ => false
  | .opDelete _ _ _ => true
  | .opDeleteImage _ _ _ _ => true

/-- The `(template.Name, guild_id, user_id)` cache key an operation targets. -/
def Op.key : Op → CacheKey
  | .opSave t g u _ _ => (t.Name, g, u)
  | .opFetch t g u => (t.Name, g, u)
  | .opDelete t g u => (t.Name, g, u)
  | .opDeleteImage t g u _ => (t.Name, g, u)

/-- The S3 document key an operation targets. -/
def Op.path : Op → String
  | .opSave t g u _ _ => profileS3Path g t.Name u
  | .opFetch t g u => profileS3Path g t.Name u
  | .opDelete t g u => profileS3Path g t.Name u
  | .opDeleteImage t g u _ => profileS3Path g t.Name u

def runOp (cfg : S3Config) (s : BackendState) : Op → BackendState
  | .opSave t g u profile world => (save_profile cfg t g u profile world s).2.2.1
  | .opFetch t g u => (fetch_profile cfg t g u s).2.1
  | .opDelete t g u => (delete_profile cfg t g u s).1
  | .opDeleteImage t g u world => (delete_profile_image cfg t g u world s).1

def runOps (cfg : S3Config) (s : BackendState) (ops : List Op) : BackendState :=
  ops.foldl (runOp cfg) s

/-! ### Reference-semantics model

CPython dicts are heap objects and both `self.profile_cache[cache_key] = res`
(in `fetch_profile`) and `self.profile_cache[cache_key] = profile` (in
`save_profile`) store a reference, while `copy.deepcopy` in `_get_from_cache`
allocates a fresh object. This small heap model makes that sharing explicit:
the cache maps keys to object addresses, and a caller mutating a dict is a
`heapSet` at the address it holds. -/

structure Heap where
  objs : List (Nat × Doc)
  next : Nat
deriving Repr, DecidableEq

/-- Contents of the object at an address (addresses we dereference are always
allocated; a dangling address reads as the empty dict). -/
def heapGet (h : Heap) (a : Nat) : Doc :=
  match assocGet h.objs a with
  | some d => d
  | none => []

/-- In-place mutation of the object at an address. -/
def heapSet (h : Heap) (a : Nat) (d : Doc) : Heap :=
  ⟨assocSet h.objs a d, h.next⟩

/-- Allocation of a fresh object. -/
def heapAlloc (h : Heap) (d : Doc) : Nat × Heap :=
  (h.next, ⟨(h.next, d) :: h.objs, h.next + 1⟩)

/-- Backend state in the reference model: the store keeps serialized values
(the bytes written by `put_object` do not alias anything), the cache keeps
object references. -/
structure RefState where
  store : List (String × Doc)
  cache : List (CacheKey × Nat)
  heap : Heap
deriving Repr, DecidableEq

/-- `S3Backend.fetch_profile` in the reference model. A cache hit deep-copies
the entry into a fresh object and returns the copy's address; a miss
fetches from the store, allocates a fresh object for the parsed JSON, caches
that very address and returns it (the returned object aliases the cache). -/
def fetch_profile_ref (cfg : S3Config) (template : Template)
    (guild_id user_id : Nat) (s : RefState) :
    Except PyErr Nat × RefState × List NetEvent :=
  let cache_key : CacheKey := (template.Name, guild_id, user_id)
  let cache1 := cacheTouch s.cache cache_key
  match cacheLookup s.cache cache_key with
  | some a =>
    -- `copy.deepcopy` of a (non-None) entry allocates a fresh object
    let (a', heap1) := heapAlloc s.heap (heapGet s.heap a)
    if heapGet s.heap a ≠ [] then
      (.ok a', ⟨s.store, cache1, heap1⟩, [])
    else
      let s3_path := profileS3Path guild_id template.Name user_id
      match assocGet s.store s3_path with
      | some res =>
        let (a2, heap2) := heapAlloc heap1 res
        (.ok a2, ⟨s.store, cachePut cache1 cache_key a2, heap2⟩,
         [.s3GetObject cfg.sprobot_s3_bucket s3_path])
      | none =>
        (.error (.keyError "User profile not found"), ⟨s.store, cache1, heap1⟩,
         [.s3GetObject cfg.sprobot_s3_bucket s3_path])
  | none =>
    let s3_path := profileS3Path guild_id template.Name user_id
    match assocGet s.store s3_path with
    | some res =>
      let (a2, heap2) := heapAlloc s.heap res
      (.ok a2, ⟨s.store, cachePut cache1 cache_key a2, heap2⟩,
       [.s3GetObject cfg.sprobot_s3_bucket s3_path])
    | none =>
      (.error (.keyError "User profile not found"), ⟨s.store, cache1, s.heap⟩,
       [.s3GetObject cfg.sprobot_s3_bucket s3_path])

/-- `S3Backend.save_profile` in the reference model: the caller passes the
address of its dict; the image-field update mutates that object in place, the
serialized snapshot goes to the store, and the cache stores the address
itself (no copy). -/
def save_profile_ref (cfg : S3Config) (template : Template)
    (guild_id user_id : Nat) (a : Nat) (world : String → FetchOutcome)
    (s : RefState) : (String × String) × RefState × List NetEvent :=
  let profile := heapGet s.heap a
  let ((error_for_user, image_url), evImg) :=
    get_image_s3_url cfg template guild_id user_id profile world
  let profile2 := savePersistedDoc template profile image_url
  let heap1 := heapSet s.heap a profile2
  let s3_path := profileS3Path guild_id template.Name user_id
  let cache_key : CacheKey := (template.Name, guild_id, user_id)
  let web_url :=
    pyUrljoin SPROBOT_WEB_ENDPOINT
      (pyUrljoin (cfg.sprobot_s3_bucket ++ "/") (pyQuote s3_path))
  ((web_url, error_for_user),
   ⟨assocSet s.store s3_path profile2, cachePut s.cache cache_key a, heap1⟩,
   evImg ++ [.s3PutObject cfg.sprobot_s3_bucket s3_path (jsonDumps profile2)])

/-- Well-formed reference state: every allocated object and every cached
reference lies below the allocation watermark. -/
abbrev RefStateWF (s : RefState) : Prop :=
  (∀ p ∈ s.heap.objs, p.1 < s.heap.next) ∧ ∀ p ∈ s.cache, p.2 < s.heap.next

/-- Unique keys, the invariant every CPython dict enjoys; used for documents,
the store and the cache. -/
abbrev assocWF {κ β : Type} (l : List (κ × β)) : Prop :=
  (l.map Prod.fst).Nodup

/-! ### Invariants tying one key's cache and store entries together -/

/-- After a successful save of `d` under `(n, g, u)` and in every state
reachable from it without another write to that key: the store holds `d` and
the cache entry, when present, is `d`. -/
def SavedInv (n : String) (g u : Nat) (d : Doc) (s : BackendState) : Prop :=
  assocGet s.store (profileS3Path g n u) = some d ∧
    (cacheLookup s.cache (n, g, u) = none ∨
     cacheLookup s.cache (n, g, u) = some d)

/-- After a delete of `(n, g, u)` and in every state reachable from it
without another write to that key: neither store nor cache knows the key. -/
def GoneInv (n : String) (g u : Nat) (s : BackendState) : Prop :=
  assocGet s.store (profileS3Path g n u) = none ∧
    cacheLookup s.cache (n, g, u) = none

/-! ### Concrete fixtures used by witnesses and counterexamples -/

/-- A concrete configuration, as produced by a successful `__init__`. -/
def cfgEx : S3Config :=
  ⟨"AKIA-FIXTURE", "hunter2", "https://sfo2.digitaloceanspaces.com/", "profile-bot"⟩

/-- Fetch-and-sniff oracle: every fetch raises (network failure). -/
def worldDown : String → FetchOutcome := fun _ => .exn

/-- Fetch-and-sniff oracle: every fetch yields bytes sniffed as a PNG. -/
def worldPng : String → FetchOutcome := fun _ => .content (some ⟨"image/png", "png"⟩)

/-- Fetch-and-sniff oracle: every fetch yields bytes sniffed as an MP4. -/
def worldMp4 : String → FetchOutcome := fun _ => .content (some ⟨"video/mp4", "mp4"⟩)

/-! ### Lemmas about association lists -/

theorem assocGet_assocSet_self {κ β : Type} [DecidableEq κ]
    (l : List (κ × β)) (k : κ) (v : β) :
    assocGet (assocSet l k v) k = some v := by
  induction l with
  | nil => simp [assocGet, assocSet]
  | cons p rest ih =>
    obtain ⟨a, b⟩ := p
    by_cases h : a = k <;> simp [assocGet, assocSet, h, ih]

theorem assocGet_assocSet_ne {κ β : Type} [DecidableEq κ]
    (l : List (κ × β)) (k k' : κ) (v : β) (h : k' ≠ k) :
    assocGet (assocSet l k v) k' = assocGet l k' := by
  induction l with
  | nil => simp [assocGet, assocSet, Ne.symm h]
  | cons p rest ih =>
    obtain ⟨a, b⟩ := p
    by_cases ha : a = k
    · subst ha
      simp [assocGet, assocSet, Ne.symm h]
    · by_cases ha' : a = k' <;> simp [assocGet, assocSet, h, ha, ha', ih]

theorem assocGet_assocRemove_ne {κ β : Type} [DecidableEq κ]
    (l : List (κ × β)) (k k' : κ) (h : k' ≠ k) :
    assocGet (assocRemove l k) k' = assocGet l k' := by
  induction l with
  | nil => simp [assocGet, assocRemove]
  | cons p rest ih =>
    obtain ⟨a, b⟩ := p
    by_cases ha : a = k
    · subst ha
      simp [assocGet, assocRemove, Ne.symm h]
    · by_cases ha' : a = k' <;> simp [assocGet, assocRemove, h, ha, ha', ih]

theorem assocGet_eq_none_of_not_mem {κ β : Type} [DecidableEq κ]
    (l : List (κ × β)) (k : κ) (h : k ∉ l.map Prod.fst) :
    assocGet l k = none := by
  induction l with
  | nil => simp [assocGet]
  | cons p rest ih =>
    obtain ⟨a, b⟩ := p
    simp only [List.map_cons, List.mem_cons] at h
    push_neg at h
    simp [assocGet, Ne.symm h.1, ih h.2]

theorem assocGet_assocRemove_self {κ β : Type} [DecidableEq κ]
    (l : List (κ × β)) (k : κ) (hwf : assocWF l) :
    assocGet (assocRemove l k) k = none := by
  induction l with
  | nil => simp [assocGet, assocRemove]
  | cons p rest ih =>
    obtain ⟨a, b⟩ := p
    simp only [assocWF, List.map_cons, List.nodup_cons] at hwf
    by_cases ha : a = k
    · subst ha
      simpa [assocRemove] using assocGet_eq_none_of_not_mem rest a hwf.1
    · simp [assocRemove, assocGet, ha, ih hwf.2]

theorem mem_of_assocGet_eq_some {κ β : Type} [DecidableEq κ]
    {l : List (κ × β)} {k : κ} {v : β} (h : assocGet l k = some v) :
    (k, v) ∈ l := by
  induction l with
  | nil => simp [assocGet] at h
  | cons p rest ih =>
    obtain ⟨a, b⟩ := p
    by_cases ha : a = k
    · subst ha
      simp [assocGet] at h
      simp [h]
    · simp only [assocGet, ha, if_false] at h
      exact List.mem_cons_of_mem _ (ih h)

theorem assocSet_eq_self {κ β : Type} [DecidableEq κ]
    {l : List (κ × β)} {k : κ} {v : β} (h : assocGet l k = some v) :
    assocSet l k v = l := by
  induction l with
  | nil => simp [assocGet] at h
  | cons p rest ih =>
    obtain ⟨a, b⟩ := p
    by_cases ha : a = k
    · subst ha
      simp [assocGet] at h
      simp [assocSet, h]
    · simp only [assocGet, ha, if_false] at h
      simp [assocSet, ha, ih h]

theorem assocRemove_eq_self {κ β : Type} [DecidableEq κ]
    {l : List (κ × β)} {k : κ} (h : assocGet l k = none) :
    assocRemove l k = l := by
  induction l with
  | nil => simp [assocRemove]
  | cons p rest ih =>
    obtain ⟨a, b⟩ := p
    by_cases ha : a = k
    · subst ha; simp [assocGet] at h
    · simp only [assocGet, ha, if_false] at h
      simp [assocRemove, ha, ih h]

theorem mem_map_fst_assocSet {κ β : Type} [DecidableEq κ]
    (l : List (κ × β)) (k x : κ) (v : β)
    (h : x ∈ (assocSet l k v).map Prod.fst) :
    x ∈ l.map Prod.fst ∨ x = k := by
  induction l with
  | nil => simpa [assocSet] using h
  | cons p rest ih =>
    obtain ⟨a, b⟩ := p
    by_cases ha : a = k
    · subst ha
      simp [assocSet] at h ⊢
      tauto
    · simp only [assocSet, ha, if_false, List.map_cons, List.mem_cons] at h ⊢
      rcases h with h | h
      · exact Or.inl (Or.inl h)
      · rcases ih h with h' | h'
        · exact Or.inl (Or.inr h')
        · exact Or.inr h'

theorem assocWF_assocSet {κ β : Type} [DecidableEq κ]
    (l : List (κ × β)) (k : κ) (v : β) (hwf : assocWF l) :
    assocWF (assocSet l k v) := by
  induction l with
  | nil => simp [assocWF, assocSet]
  | cons p rest ih =>
    obtain ⟨a, b⟩ := p
    simp only [assocWF, List.map_cons, List.nodup_cons] at hwf
    by_cases ha : a = k
    · subst ha
      simpa [assocWF, assocSet] using hwf
    · have : a ∉ (assocSet rest k v).map Prod.fst := by
        intro hmem
        rcases mem_map_fst_assocSet rest k a v hmem with h' | h'
        · exact hwf.1 h'
        · exact ha h'
      simpa [assocWF, assocSet, ha, this] using ih hwf.2

theorem assocGet_dropLast {κ β : Type} [DecidableEq κ]
    (l : List (κ × β)) (k : κ) :
    assocGet l.dropLast k = assocGet l k ∨ assocGet l.dropLast k = none := by
  induction l with
  | nil => simp [assocGet]
  | cons p rest ih =>
    obtain ⟨a, b⟩ := p
    cases rest with
    | nil => right; simp [assocGet]
    | cons q rest' =>
      rw [List.dropLast_cons₂]
      by_cases ha : a = k
      · left; simp [assocGet, ha]
      · simpa [assocGet, ha] using ih

/-! ### Lemmas about the LRU cache -/

theorem cacheLookup_cachePut_self {β : Type} (c : List (CacheKey × β))
    (k : CacheKey) (v : β) : cacheLookup (cachePut c k v) k = some v := by
  unfold cachePut cacheLookup
  by_cases h : cacheMaxSize < ((k, v) :: assocRemove c k).length
  · simp only [h, if_true]
    cases hrem : assocRemove c k with
    | nil => rw [hrem] at h; simp [cacheMaxSize] at h
    | cons q rest =>
      rw [List.dropLast_cons₂]
      simp [assocGet]
  · simp only [h, if_false]
    simp [assocGet]

theorem cacheLookup_cachePut_ne {β : Type} (c : List (CacheKey × β))
    (k k' : CacheKey) (v : β) (h : k' ≠ k) :
    cacheLookup (cachePut c k v) k' = cacheLookup c k' ∨
      cacheLookup (cachePut c k v) k' = none := by
  unfold cachePut cacheLookup
  by_cases hl : cacheMaxSize < ((k, v) :: assocRemove c k).length
  · simp only [hl, if_true]
    rcases assocGet_dropLast ((k, v) :: assocRemove c k) k' with hd | hd
    · rw [hd]
      simp only [assocGet, Ne.symm h, if_false]
      left
      exact assocGet_assocRemove_ne c k k' h
    · right; exact hd
  · simp only [hl, if_false]
    left
    simp only [assocGet, Ne.symm h, if_false]
    exact assocGet_assocRemove_ne c k k' h

theorem cacheLookup_cacheTouch_self {β : Type} (c : List (CacheKey × β))
    (k : CacheKey) : cacheLookup (cacheTouch c k) k = cacheLookup c k := by
  unfold cacheTouch
  cases h : cacheLookup c k with
  | none => simpa using h
  | some v => simp [cacheLookup, assocGet]

theorem cacheLookup_cacheTouch_ne {β : Type} (c : List (CacheKey × β))
    (k k' : CacheKey) (h : k' ≠ k) :
    cacheLookup (cacheTouch c k) k' = cacheLookup c k' := by
  unfold cacheTouch
  cases hl : cacheLookup c k with
  | none => rfl
  | some v =>
    simp only [cacheLookup, assocGet, Ne.symm h, if_false]
    exact assocGet_assocRemove_ne c k k' h

theorem fetch_profile_of_SavedInv (cfg : S3Config) (t : Template) (g u : Nat)
    (d : Doc) (s : BackendState) (h : SavedInv t.Name g u d s) :
    (fetch_profile cfg t g u s).1 = .ok d := by
  obtain ⟨hstore, hcache⟩ := h
  rcases hcache with hc | hc
  · simp [fetch_profile, get_from_cache, hc, hstore]
  · by_cases hd : d = []
    · subst hd
      simp [fetch_profile, get_from_cache, hc, hstore]
    · simp [fetch_profile, get_from_cache, hc, hstore, hd]

theorem fetch_profile_of_GoneInv (cfg : S3Config) (t : Template) (g u : Nat)
    (s : BackendState) (h : GoneInv t.Name g u s) :
    (fetch_profile cfg t g u s).1 = .error (.keyError "User profile not found") := by
  obtain ⟨hstore, hcache⟩ := h
  simp [fetch_profile, get_from_cache, hcache, hstore]

/-- Unfolding lemma: a fetch leaves the store untouched and either only
reorders the cache or re-fills the fetched key with the stored document. -/
theorem fetch_profile_state_cases (cfg : S3Config) (t : Template) (g u : Nat)
    (s : BackendState) :
    (fetch_profile cfg t g u s).2.1.store = s.store ∧
    ((fetch_profile cfg t g u s).2.1.cache = cacheTouch s.cache (t.Name, g, u) ∨
     ∃ res, assocGet s.store (profileS3Path g t.Name u) = some res ∧
       (fetch_profile cfg t g u s).2.1.cache =
         cachePut (cacheTouch s.cache (t.Name, g, u)) (t.Name, g, u) res) := by
  unfold fetch_profile get_from_cache
  rcases hl : cacheLookup s.cache (t.Name, g, u) with _ | p
  · rcases hs : assocGet s.store (profileS3Path g t.Name u) with _ | res
    · simp [hl, hs]
    · exact ⟨by simp [hl, hs], Or.inr ⟨res, rfl, by simp [hl, hs]⟩⟩
  · by_cases hp : p = []
    · subst hp
      rcases hs : assocGet s.store (profileS3Path g t.Name u) with _ | res
      · simp [hl, hs]
      · exact ⟨by simp [hl, hs], Or.inr ⟨res, rfl, by simp [hl, hs]⟩⟩
    · simp [hl, hp]

/-- Unfolding lemma: the state a save produces. -/
theorem save_profile_state (cfg : S3Config) (t : Template) (g u : Nat)
    (profile : Doc) (world : String → FetchOutcome) (s : BackendState) :
    (save_profile cfg t g u profile world s).2.1 =
      savePersistedDoc t profile (get_image_s3_url cfg t g u profile world).1.2 ∧
    (save_profile cfg t g u profile world s).2.2.1 =
      ⟨assocSet s.store (profileS3Path g t.Name u)
         (save_profile cfg t g u profile world s).2.1,
       cachePut s.cache (t.Name, g, u) (save_profile cfg t g u profile world s).2.1,
       s.hits, s.misses⟩ ∧
    (save_profile cfg t g u profile world s).1.2 =
      (get_image_s3_url cfg t g u profile world).1.1 ∧
    (save_profile cfg t g u profile world s).2.2.2 =
      (get_image_s3_url cfg t g u profile world).2 ++
        [.s3PutObject cfg.sprobot_s3_bucket (profileS3Path g t.Name u)
          (jsonDumps (save_profile cfg t g u profile world s).2.1)] := by
  rcases hgi : get_image_s3_url cfg t g u profile world with ⟨⟨e, iu⟩, ev⟩
  simp [save_profile, hgi]

theorem SavedInv_fetch (cfg : S3Config) (t' : Template) (g' u' : Nat)
    (n : String) (g u : Nat) (d : Doc) (s : BackendState)
    (h : SavedInv n g u d s) :
    SavedInv n g u d (fetch_profile cfg t' g' u' s).2.1 := by
  obtain ⟨hstore, hcache⟩ := h
  obtain ⟨hst, hca⟩ := fetch_profile_state_cases cfg t' g' u' s
  refine ⟨by rw [hst]; exact hstore, ?_⟩
  by_cases hk : ((n, g, u) : CacheKey) = (t'.Name, g', u')
  · -- a re-read of the very key can only re-fill the cache with `d` itself
    have hn : t'.Name = n := (congrArg Prod.fst hk).symm
    have hg : g' = g := (congrArg (fun p : CacheKey => p.2.1) hk).symm
    have hu : u' = u := (congrArg (fun p : CacheKey => p.2.2) hk).symm
    subst hn; subst hg; subst hu
    rcases hca with hca | ⟨res, hres, hca⟩
    · rw [hca, cacheLookup_cacheTouch_self]
      exact hcache
    · have hres' : res = d := by
        rw [hstore] at hres
        exact (Option.some.injEq _ _ ▸ hres).symm
      subst hres'
      rw [hca]
      right
      exact cacheLookup_cachePut_self _ _ _
  · rcases hca with hca | ⟨res, hres, hca⟩
    · rw [hca, cacheLookup_cacheTouch_ne _ _ _ hk]
      exact hcache
    · rw [hca]
      rcases cacheLookup_cachePut_ne (cacheTouch s.cache (t'.Name, g', u'))
          (t'.Name, g', u') (n, g, u) res hk with hc' | hc'
      · rw [hc', cacheLookup_cacheTouch_ne _ _ _ hk]
        exact hcache
      · exact Or.inl hc'

theorem SavedInv_save (cfg : S3Config) (t' : Template) (g' u' : Nat)
    (p' : Doc) (w' : String → FetchOutcome) (n : String) (g u : Nat) (d : Doc)
    (s : BackendState)
    (hk : (t'.Name, g', u') ≠ ((n, g, u) : CacheKey))
    (hp : profileS3Path g' t'.Name u' ≠ profileS3Path g n u)
    (h : SavedInv n g u d s) :
    SavedInv n g u d (save_profile cfg t' g' u' p' w' s).2.2.1 := by
  obtain ⟨hstore, hcache⟩ := h
  obtain ⟨-, hstate, -, -⟩ := save_profile_state cfg t' g' u' p' w' s
  rw [SavedInv, hstate]
  refine ⟨?_, ?_⟩
  · simpa [assocGet_assocSet_ne _ _ _ _ (Ne.symm hp)] using hstore
  · rcases cacheLookup_cachePut_ne s.cache (t'.Name, g', u') (n, g, u)
        (save_profile cfg t' g' u' p' w' s).2.1 (Ne.symm hk) with hc' | hc'
    · simp only [hc']
      exact hcache
    · exact Or.inl hc'

theorem SavedInv_delete (cfg : S3Config) (t' : Template) (g' u' : Nat)
    (n : String) (g u : Nat) (d : Doc) (s : BackendState)
    (hk : (t'.Name, g', u') ≠ ((n, g, u) : CacheKey))
    (hp : profileS3Path g' t'.Name u' ≠ profileS3Path g n u)
    (h : SavedInv n g u d s) :
    SavedInv n g u d (delete_profile cfg t' g' u' s).1 := by
  obtain ⟨hstore, hcache⟩ := h
  refine ⟨?_, ?_⟩
  · simpa [delete_profile, assocGet_assocRemove_ne _ _ _ (Ne.symm hp)] using hstore
  · simpa [delete_profile, cacheDel, cacheLookup,
      assocGet_assocRemove_ne s.cache _ _ (Ne.symm hk)] using hcache

theorem SavedInv_deleteImage (cfg : S3Config) (t' : Template) (g' u' : Nat)
    (w' : String → FetchOutcome) (n : String) (g u : Nat) (d : Doc)
    (s : BackendState)
    (hk : (t'.Name, g', u') ≠ ((n, g, u) : CacheKey))
    (hp : profileS3Path g' t'.Name u' ≠ profileS3Path g n u)
    (h : SavedInv n g u d s) :
    SavedInv n g u d (delete_profile_image cfg t' g' u' w' s).1 := by
  have h1 := SavedInv_fetch cfg t' g' u' n g u d s h
  unfold delete_profile_image
  rcases hf : fetch_profile cfg t' g' u' s with ⟨r, s1, ev⟩
  rw [hf] at h1
  cases r with
  | error e => exact h1
  | ok p =>
    simp only
    by_cases h2 :
        (if p ≠ [] ∧ dictContains p t'.Image.Name
         then dictDel p t'.Image.Name else p) ≠ []
    · rcases hsv : save_profile cfg t' g' u'
          (if p ≠ [] ∧ dictContains p t'.Image.Name
           then dictDel p t'.Image.Name else p) w' s1 with ⟨⟨ww, err⟩, p2, s2, ev2⟩
      have h3 := SavedInv_save cfg t' g' u'
        (if p ≠ [] ∧ dictContains p t'.Image.Name
         then dictDel p t'.Image.Name else p) w' n g u d s1 hk hp h1
      rw [hsv] at h3
      simp only [h2, if_true, hsv]
      by_cases he : err ≠ "" <;> simp [he, h2, h3]
    · have h3 := SavedInv_delete cfg t' g' u' n g u d s1 hk hp h1
      rcases hdel : delete_profile cfg t' g' u' s1 with ⟨s2, ev2⟩
      rw [hdel] at h3
      simp only [h2, if_false, hdel]
      exact h3

theorem GoneInv_fetch (cfg : S3Config) (t' : Template) (g' u' : Nat)
    (n : String) (g u : Nat) (s : BackendState) (h : GoneInv n g u s) :
    GoneInv n g u (fetch_profile cfg t' g' u' s).2.1 := by
  obtain ⟨hstore, hcache⟩ := h
  obtain ⟨hst, hca⟩ := fetch_profile_state_cases cfg t' g' u' s
  refine ⟨by rw [hst]; exact hstore, ?_⟩
  by_cases hk : ((n, g, u) : CacheKey) = (t'.Name, g', u')
  · have hn : t'.Name = n := (congrArg Prod.fst hk).symm
    have hg : g' = g := (congrArg (fun p : CacheKey => p.2.1) hk).symm
    have hu : u' = u := (congrArg (fun p : CacheKey => p.2.2) hk).symm
    subst hn; subst hg; subst hu
    rcases hca with hca | ⟨res, hres, hca⟩
    · rw [hca, cacheLookup_cacheTouch_self]
      exact hcache
    · rw [hstore] at hres
      exact absurd hres (by simp)
  · rcases hca with hca | ⟨res, hres, hca⟩
    · rw [hca, cacheLookup_cacheTouch_ne _ _ _ hk]
      exact hcache
    · rw [hca]
      rcases cacheLookup_cachePut_ne (cacheTouch s.cache (t'.Name, g', u'))
          (t'.Name, g', u') (n, g, u) res hk with hc' | hc'
      · rw [hc', cacheLookup_cacheTouch_ne _ _ _ hk]
        exact hcache
      · exact hc'

theorem GoneInv_save (cfg : S3Config) (t' : Template) (g' u' : Nat)
    (p' : Doc) (w' : String → FetchOutcome) (n : String) (g u : Nat)
    (s : BackendState)
    (hk : (t'.Name, g', u') ≠ ((n, g, u) : CacheKey))
    (hp : profileS3Path g' t'.Name u' ≠ profileS3Path g n u)
    (h : GoneInv n g u s) :
    GoneInv n g u (save_profile cfg t' g' u' p' w' s).2.2.1 := by
  obtain ⟨hstore, hcache⟩ := h
  obtain ⟨-, hstate, -, -⟩ := save_profile_state cfg t' g' u' p' w' s
  rw [GoneInv, hstate]
  refine ⟨?_, ?_⟩
  · simpa [assocGet_assocSet_ne _ _ _ _ (Ne.symm hp)] using hstore
  · rcases cacheLookup_cachePut_ne s.cache (t'.Name, g', u') (n, g, u)
        (save_profile cfg t' g' u' p' w' s).2.1 (Ne.symm hk) with hc' | hc'
    · rw [hc']; exact hcache
    · exact hc'

theorem GoneInv_delete (cfg : S3Config) (t' : Template) (g' u' : Nat)
    (n : String) (g u : Nat) (s : BackendState)
    (hk : (t'.Name, g', u') ≠ ((n, g, u) : CacheKey))
    (hp : profileS3Path g' t'.Name u' ≠ profileS3Path g n u)
    (h : GoneInv n g u s) :
    GoneInv n g u (delete_profile cfg t' g' u' s).1 := by
  obtain ⟨hstore, hcache⟩ := h
  refine ⟨?_, ?_⟩
  · simpa [delete_profile, assocGet_assocRemove_ne _ _ _ (Ne.symm hp)] using hstore
  · simpa [delete_profile, cacheDel, cacheLookup,
      assocGet_assocRemove_ne s.cache _ _ (Ne.symm hk)] using hcache

theorem GoneInv_deleteImage (cfg : S3Config) (t' : Template) (g' u' : Nat)
    (w' : String → FetchOutcome) (n : String) (g u : Nat) (s : BackendState)
    (hk : (t'.Name, g', u') ≠ ((n, g, u) : CacheKey))
    (hp : profileS3Path g' t'.Name u' ≠ profileS3Path g n u)
    (h : GoneInv n g u s) :
    GoneInv n g u (delete_profile_image cfg t' g' u' w' s).1 := by
  have h1 := GoneInv_fetch cfg t' g' u' n g u s h
  unfold delete_profile_image
  rcases hf : fetch_profile cfg t' g' u' s with ⟨r, s1, ev⟩
  rw [hf] at h1
  cases r with
  | error e => exact h1
  | ok p =>
    simp only
    by_cases h2 :
        (if p ≠ [] ∧ dictContains p t'.Image.Name
         then dictDel p t'.Image.Name else p) ≠ []
    · rcases hsv : save_profile cfg t' g' u'
          (if p ≠ [] ∧ dictContains p t'.Image.Name
           then dictDel p t'.Image.Name else p) w' s1 with ⟨⟨ww, err⟩, p2, s2, ev2⟩
      have h3 := GoneInv_save cfg t' g' u'
        (if p ≠ [] ∧ dictContains p t'.Image.Name
         then dictDel p t'.Image.Name else p) w' n g u s1 hk hp h1
      rw [hsv] at h3
      simp only [h2, if_true, hsv]
      by_cases he : err ≠ "" <;> simp [he, h2, h3]
    · have h3 := GoneInv_delete cfg t' g' u' n g u s1 hk hp h1
      rcases hdel : delete_profile cfg t' g' u' s1 with ⟨s2, ev2⟩
      rw [hdel] at h3
      simp only [h2, if_false, hdel]
      exact h3

/-! ### Trace preservation -/

theorem SavedInv_runOp (cfg : S3Config) (op : Op) (n : String) (g u : Nat)
    (d : Doc) (s : BackendState)
    (hop : op.isMutation = true →
      op.key ≠ ((n, g, u) : CacheKey) ∧ op.path ≠ profileS3Path g n u)
    (h : SavedInv n g u d s) : SavedInv n g u d (runOp cfg s op) := by
  cases op with
  | opSave t' g' u' p' w' =>
    obtain ⟨hk, hp⟩ := hop rfl
    exact SavedInv_save cfg t' g' u' p' w' n g u d s hk hp h
  | opFetch t' g' u' =>
    exact SavedInv_fetch cfg t' g' u' n g u d s h
  | opDelete t' g' u' =>
    obtain ⟨hk, hp⟩ := hop rfl
    exact SavedInv_delete cfg t' g' u' n g u d s hk hp h
  | opDeleteImage t' g' u' w' =>
    obtain ⟨hk, hp⟩ := hop rfl
    exact SavedInv_deleteImage cfg t' g' u' w' n g u d s hk hp h

theorem SavedInv_runOps (cfg : S3Config) (ops : List Op) (n : String)
    (g u : Nat) (d : Doc) (s : BackendState)
    (hops : ∀ op ∈ ops, op.isMutation = true →
      op.key ≠ ((n, g, u) : CacheKey) ∧ op.path ≠ profileS3Path g n u)
    (h : SavedInv n g u d s) : SavedInv n g u d (runOps cfg s ops) := by
  induction ops generalizing s with
  | nil => simpa [runOps] using h
  | cons op ops ih =>
    rw [runOps, List.foldl_cons]
    exact ih _ (fun o ho => hops o (List.mem_cons_of_mem _ ho))
      (SavedInv_runOp cfg op n g u d s (hops op (List.mem_cons_self _ _)) h)

theorem GoneInv_runOp (cfg : S3Config) (op : Op) (n : String) (g u : Nat)
    (s : BackendState)
    (hop : op.isMutation = true →
      op.key ≠ ((n, g, u) : CacheKey) ∧ op.path ≠ profileS3Path g n u)
    (h : GoneInv n g u s) : GoneInv n g u (runOp cfg s op) := by
  cases op with
  | opSave t' g' u' p' w' =>
    obtain ⟨hk, hp⟩ := hop rfl
    exact GoneInv_save cfg t' g' u' p' w' n g u s hk hp h
  | opFetch t' g' u' =>
    exact GoneInv_fetch cfg t' g' u' n g u s h
  | opDelete t' g' u' =>
    obtain ⟨hk, hp⟩ := hop rfl
    exact GoneInv_delete cfg t' g' u' n g u s hk hp h
  | opDeleteImage t' g' u' w' =>
    obtain ⟨hk, hp⟩ := hop rfl
    exact GoneInv_deleteImage cfg t' g' u' w' n g u s hk hp h

theorem GoneInv_runOps (cfg : S3Config) (ops : List Op) (n : String)
    (g u : Nat) (s : BackendState)
    (hops : ∀ op ∈ ops, op.isMutation = true →
      op.key ≠ ((n, g, u) : CacheKey) ∧ op.path ≠ profileS3Path g n u)
    (h : GoneInv n g u s) : GoneInv n g u (runOps cfg s ops) := by
  induction ops generalizing s with
  | nil => simpa [runOps] using h
  | cons op ops ih =>
    rw [runOps, List.foldl_cons]
    exact ih _ (fun o ho => hops o (List.mem_cons_of_mem _ ho))
      (GoneInv_runOp cfg op n g u s (hops op (List.mem_cons_self _ _)) h)

/-! ### Decimal digit strings (`Nat.repr`) are nonempty and slash-free -/

theorem digitChar_ne_slash (n : Nat) : Nat.digitChar n ≠ '/' := by
  by_cases h16 : n < 16
  · interval_cases n <;> decide
  · have hbig : ∀ k, k < 16 → n ≠ k := by omega
    have h : Nat.digitChar n = '*' := by
      unfold Nat.digitChar
      rw [if_neg (hbig 0 (by norm_num)), if_neg (hbig 1 (by norm_num)),
        if_neg (hbig 2 (by norm_num)), if_neg (hbig 3 (by norm_num)),
        if_neg (hbig 4 (by norm_num)), if_neg (hbig 5 (by norm_num)),
        if_neg (hbig 6 (by norm_num)), if_neg (hbig 7 (by norm_num)),
        if_neg (hbig 8 (by norm_num)), if_neg (hbig 9 (by norm_num)),
        if_neg (hbig 10 (by norm_num)), if_neg (hbig 11 (by norm_num)),
        if_neg (hbig 12 (by norm_num)), if_neg (hbig 13 (by norm_num)),
        if_neg (hbig 14 (by norm_num)), if_neg (hbig 15 (by norm_num))]
    rw [h]; decide

theorem toDigitsCore_ne_slash (fuel n : Nat) (ds : List Char)
    (hds : ∀ c ∈ ds, c ≠ '/') :
    ∀ c ∈ Nat.toDigitsCore 10 fuel n ds, c ≠ '/' := by
  induction fuel generalizing n ds with
  | zero => simpa [Nat.toDigitsCore] using hds
  | succ fuel ih =>
    intro c hc
    simp only [Nat.toDigitsCore] at hc
    by_cases h : n / 10 = 0
    · rw [if_pos h] at hc
      rcases List.mem_cons.mp hc with h1 | h1
      · subst h1; exact digitChar_ne_slash _
      · exact hds c h1
    · rw [if_neg h] at hc
      refine ih (n / 10) (Nat.digitChar (n % 10) :: ds) ?_ c hc
      intro c' hc'
      rcases List.mem_cons.mp hc' with h1 | h1
      · subst h1; exact digitChar_ne_slash _
      · exact hds c' h1

theorem toDigitsCore_ne_nil_of (fuel n : Nat) (ds : List Char) (h : ds ≠ []) :
    Nat.toDigitsCore 10 fuel n ds ≠ [] := by
  induction fuel generalizing n ds with
  | zero => simpa [Nat.toDigitsCore] using h
  | succ fuel ih =>
    simp only [Nat.toDigitsCore]
    by_cases h10 : n / 10 = 0
    · simp [h10]
    · simp only [h10, if_false]
      exact ih (n / 10) _ (by simp)

theorem reprNat_data_ne_slash (n : Nat) : ∀ c ∈ (Nat.repr n).data, c ≠ '/' := by
  intro c hc
  exact toDigitsCore_ne_slash (n + 1) n [] (by simp) c hc

theorem reprNat_data_ne_nil (n : Nat) : (Nat.repr n).data ≠ [] := by
  show Nat.toDigitsCore 10 (n + 1) n [] ≠ []
  simp only [Nat.toDigitsCore]
  by_cases h10 : n / 10 = 0
  · simp [h10]
  · simp only [h10, if_false]
    exact toDigitsCore_ne_nil_of n (n / 10) _ (by simp)

theorem reprNat_head_ne_slash (n : Nat) : (Nat.repr n).data.head? ≠ some '/' := by
  cases h : (Nat.repr n).data with
  | nil => simp
  | cons c cs =>
    simp only [List.head?]
    intro hcontra
    have hc : c = '/' := by
      injection hcontra
    have hmem : c ∈ (Nat.repr n).data := by
      rw [h]; exact List.mem_cons_self _ _
    exact reprNat_data_ne_slash n c hmem hc

theorem reprNat_getLast_ne_slash (n : Nat) :
    (Nat.repr n).data.getLast? ≠ some '/' := by
  intro hcontra
  have hmem : '/' ∈ (Nat.repr n).data := by
    rw [List.getLast?_eq_getElem?] at hcontra
    exact List.getElem?_mem hcontra
  exact reprNat_data_ne_slash n '/' hmem rfl

/-! ### Characterizing the `os.path.join`-derived object keys -/

theorem isPrefixOf_singleton (a : Char) (l : List Char) :
    List.isPrefixOf [a] l = true ↔ l.head? = some a := by
  cases l with
  | nil => simp [List.isPrefixOf]
  | cons c cs =>
    show (a == c && List.isPrefixOf ([] : List Char) cs) = true ↔ some c = some a
    rw [show List.isPrefixOf ([] : List Char) cs = true from by cases cs <;> rfl]
    rw [Bool.and_true, beq_iff_eq]
    constructor
    · intro h; rw [h]
    · intro h; exact (Option.some.inj h).symm

theorem pyStartsWith_slash (b : String) :
    pyStartsWith b "/" = true ↔ b.data.head? = some '/' := by
  unfold pyStartsWith
  rw [show ("/" : String).data = ['/'] from rfl]
  exact isPrefixOf_singleton '/' b.data

theorem pyEndsWith_slash (s : String) :
    pyEndsWith s "/" = true ↔ s.data.getLast? = some '/' := by
  unfold pyEndsWith
  rw [show ("/" : String).data = ['/'] from rfl]
  show List.isPrefixOf (['/'].reverse) s.data.reverse = true ↔ _
  rw [show (['/'] : List Char).reverse = ['/'] from rfl, isPrefixOf_singleton,
    List.head?_reverse]

theorem ospathJoin1_eq (acc b : String) (hb : b.data.head? ≠ some '/')
    (hacc1 : acc ≠ "") (hacc2 : acc.data.getLast? ≠ some '/') :
    ospathJoin1 acc b = acc ++ "/" ++ b := by
  have h1 : ¬ (pyStartsWith b "/" = true) := by
    rw [pyStartsWith_slash]; exact hb
  have h2 : ¬ (acc = "" ∨ pyEndsWith acc "/" = true) := by
    rintro (h | h)
    · exact hacc1 h
    · rw [pyEndsWith_slash] at h; exact hacc2 h
  simp only [ospathJoin1]
  rw [if_neg h1, if_neg h2]

theorem strAppend_ne_empty (a b : String) (hb : b ≠ "") : a ++ b ≠ "" := by
  intro h
  apply hb
  have hdata := congrArg String.data h
  simp only [String.data_append] at hdata
  exact String.ext (List.append_eq_nil.mp hdata).2

theorem strAppend_ne_empty_left (a b : String) (ha : a ≠ "") : a ++ b ≠ "" := by
  intro h
  apply ha
  have hdata := congrArg String.data h
  simp only [String.data_append] at hdata
  exact String.ext (List.append_eq_nil.mp hdata).1

theorem strAppend_getLast_ne_slash (a b : String) (hb : b ≠ "")
    (h : b.data.getLast? ≠ some '/') :
    (a ++ b).data.getLast? ≠ some '/' := by
  rw [String.data_append, List.getLast?_append]
  cases hg : b.data.getLast? with
  | none =>
    rw [List.getLast?_eq_none_iff] at hg
    exact absurd (String.ext hg) hb
  | some c =>
    rw [hg] at h
    simpa [Option.or] using h

theorem strAppend_head_ne_slash (a b : String) (ha : a ≠ "")
    (h : a.data.head? ≠ some '/') :
    (a ++ b).data.head? ≠ some '/' := by
  rw [String.data_append, List.head?_append]
  cases hg : a.data.head? with
  | none =>
    rw [List.head?_eq_none_iff] at hg
    exact absurd (String.ext hg) ha
  | some c =>
    rw [hg] at h
    simpa [Option.or] using h

theorem reprNat_ne_empty (n : Nat) : Nat.repr n ≠ "" := by
  intro h
  exact reprNat_data_ne_nil n (congrArg String.data h)

/-- The profile document key is exactly
`profiles/{guild_id}/{templateName}/{user_id}.json`, for template names that
do not start or end with a path separator. -/
theorem profileS3Path_eq (g u : Nat) (name : String)
    (h1 : name ≠ "") (h2 : name.data.head? ≠ some '/')
    (h3 : name.data.getLast? ≠ some '/') :
    profileS3Path g name u =
      "profiles" ++ "/" ++ Nat.repr g ++ "/" ++ name ++ "/" ++ Nat.repr u ++ ".json" := by
  unfold profileS3Path ospathJoin
  simp only [List.foldl_cons, List.foldl_nil]
  rw [ospathJoin1_eq "profiles" (Nat.repr g) (reprNat_head_ne_slash g)
    (by decide) (by decide)]
  rw [ospathJoin1_eq _ name h2
    (strAppend_ne_empty _ _ (reprNat_ne_empty g))
    (strAppend_getLast_ne_slash _ _ (reprNat_ne_empty g) (reprNat_getLast_ne_slash g))]
  rw [ospathJoin1_eq _ (Nat.repr u ++ ".json")
    (strAppend_head_ne_slash _ _ (reprNat_ne_empty u) (reprNat_head_ne_slash u))
    (strAppend_ne_empty _ _ h1)
    (strAppend_getLast_ne_slash _ _ h1 h3)]
  apply String.ext
  simp [String.data_append, List.append_assoc]

/-- The image object key is exactly
`images/{guild_id}/{templateName}/{user_id}.{ext}`, for template names that
do not start or end with a path separator. -/
theorem imageS3Path_eq (g u : Nat) (name ext : String)
    (h1 : name ≠ "") (h2 : name.data.head? ≠ some '/')
    (h3 : name.data.getLast? ≠ some '/') :
    imageS3Path g name u ext =
      "images" ++ "/" ++ Nat.repr g ++ "/" ++ name ++ "/" ++ Nat.repr u ++ "." ++ ext := by
  unfold imageS3Path ospathJoin
  simp only [List.foldl_cons, List.foldl_nil]
  rw [ospathJoin1_eq "images" (Nat.repr g) (reprNat_head_ne_slash g)
    (by decide) (by decide)]
  rw [ospathJoin1_eq _ name h2
    (strAppend_ne_empty _ _ (reprNat_ne_empty g))
    (strAppend_getLast_ne_slash _ _ (reprNat_ne_empty g) (reprNat_getLast_ne_slash g))]
  rw [ospathJoin1_eq _ (Nat.repr u ++ "." ++ ext)
    (strAppend_head_ne_slash _ ext (strAppend_ne_empty _ _ (by decide))
      (strAppend_head_ne_slash _ _ (reprNat_ne_empty u) (reprNat_head_ne_slash u)))
    (strAppend_ne_empty _ _ h1)
    (strAppend_getLast_ne_slash _ _ h1 h3)]
  apply String.ext
  simp [String.data_append, List.append_assoc]

/-! ### Heap lemmas -/

theorem heapGet_heapSet_self (h : Heap) (a : Nat) (d : Doc) :
    heapGet (heapSet h a d) a = d := by
  simp [heapGet, heapSet, assocGet_assocSet_self]

theorem heapGet_heapSet_ne (h : Heap) (a a' : Nat) (d : Doc) (hne : a' ≠ a) :
    heapGet (heapSet h a d) a' = heapGet h a' := by
  simp [heapGet, heapSet, assocGet_assocSet_ne _ _ _ _ hne]

theorem heapGet_heapAlloc_old (h : Heap) (d : Doc) (a : Nat) (ha : a < h.next) :
    heapGet (heapAlloc h d).2 a = heapGet h a := by
  simp [heapGet, heapAlloc, assocGet, Nat.ne_of_gt ha]

/-! ### Document helpers -/

theorem dictDel_ne_nil (p : Doc) (kDel k' v' : String)
    (hne : k' ≠ kDel) (h : dictGet p k' = some v') : dictDel p kDel ≠ [] := by
  intro hnil
  have hpres := assocGet_assocRemove_ne p kDel k' hne
  rw [show assocRemove p kDel = dictDel p kDel from rfl, hnil] at hpres
  rw [show assocGet p k' = dictGet p k' from rfl, h] at hpres
  exact Option.noConfusion hpres

theorem assocWF_foldl_dictSet (children : List (String × String)) (acc : Doc)
    (h : assocWF acc) :
    assocWF (children.foldl (fun d lv => dictSet d lv.1 lv.2) acc) := by
  induction children generalizing acc with
  | nil => simpa using h
  | cons c cs ih =>
    rw [List.foldl_cons]
    exact ih _ (assocWF_assocSet _ _ _ h)

theorem on_submit_built_profile_wf (children : List (String × String))
    (saved : Option String) (img : String) :
    assocWF (on_submit_built_profile children saved img) := by
  unfold on_submit_built_profile
  have hbase := assocWF_foldl_dictSet children [] (by simp [assocWF])
  cases saved with
  | none => exact hbase
  | some url =>
    dsimp only
    by_cases hu : url ≠ ""
    · rw [if_pos hu]
      exact assocWF_assocSet _ _ _ hbase
    · rw [if_neg hu]
      exact hbase

/-! ### Image relocation outcome characterizations -/

/-- Relocation rejection: fetch raised, sniff failed, or non-image mime. The
returned URL is `None` and the user message is non-empty. -/
theorem get_image_s3_url_rejected (cfg : S3Config) (t : Template) (g u : Nat)
    (profile : Doc) (world : String → FetchOutcome) (url : String)
    (hurl : dictGet profile t.Image.Name = some url) (hne : url ≠ "")
    (hown : pyStartsWith url cfg.sprobot_s3_endpoint = false)
    (hrej : world url = .exn ∨ world url = .content none ∨
      ∃ kind, world url = .content (some kind) ∧
        pyStartsWith kind.mime "image/" = false) :
    (get_image_s3_url cfg t g u profile world).1.2 = none ∧
    (get_image_s3_url cfg t g u profile world).1.1 ≠ "" ∧
    (get_image_s3_url cfg t g u profile world).2 = [.httpGet url] := by
  unfold get_image_s3_url
  rw [hurl]
  rcases hrej with hr | hr | ⟨kind, hr, hmime⟩
  · simp [hne, hown, hr, fetchFailedMsg]
  · simp [hne, hown, hr, unknownTypeMsg]
  · refine ⟨by simp [hne, hown, hr, hmime], ?_, by simp [hne, hown, hr, hmime]⟩
    simp only [hne, hown, hr, hmime, if_false, Bool.false_eq_true, ite_false]
    exact strAppend_ne_empty _ _ (by decide)

/-- Relocation no-op for URLs already under the owned storage endpoint. -/
theorem get_image_s3_url_owned (cfg : S3Config) (t : Template) (g u : Nat)
    (profile : Doc) (world : String → FetchOutcome) (url : String)
    (hurl : dictGet profile t.Image.Name = some url) (hne : url ≠ "")
    (hown : pyStartsWith url cfg.sprobot_s3_endpoint = true) :
    get_image_s3_url cfg t g u profile world = (("", some url), []) := by
  unfold get_image_s3_url
  rw [hurl]
  simp [hne, hown]

/-- Successful relocation: fetch delivered bytes sniffed as an image. -/
theorem get_image_s3_url_success (cfg : S3Config) (t : Template) (g u : Nat)
    (profile : Doc) (world : String → FetchOutcome) (url : String)
    (kind : SniffKind)
    (hurl : dictGet profile t.Image.Name = some url) (hne : url ≠ "")
    (hown : pyStartsWith url cfg.sprobot_s3_endpoint = false)
    (hw : world url = .content (some kind))
    (hmime : pyStartsWith kind.mime "image/" = true) :
    get_image_s3_url cfg t g u profile world =
      (("", some (pyUrljoin cfg.sprobot_s3_endpoint
          (pyUrljoin (cfg.sprobot_s3_bucket ++ "/")
            (pyQuote (imageS3Path g t.Name u kind.extension))))),
       [.httpGet url,
        .s3Upload cfg.sprobot_s3_bucket (imageS3Path g t.Name u kind.extension),
        .s3PutObjectAcl cfg.sprobot_s3_bucket (imageS3Path g t.Name u kind.extension)]) := by
  unfold get_image_s3_url
  rw [hurl]
  simp [hne, hown, hw, hmime]

/-- Empty or absent image field: relocation is a silent no-op. -/
theorem get_image_s3_url_absent (cfg : S3Config) (t : Template) (g u : Nat)
    (profile : Doc) (world : String → FetchOutcome)
    (h : dictGet profile t.Image.Name = none ∨
         dictGet profile t.Image.Name = some "") :
    get_image_s3_url cfg t g u profile world = (("", none), []) := by
  unfold get_image_s3_url
  rcases h with h | h
  · rw [h]
  · rw [h]; simp

/-! ## Claims -/

/-- C1: for a profile whose image URL is rejected by the relocation stage
(network exception on the fetch, unrecognized sniff — the shape an HTTP error
page takes, since `httpx.stream` does not raise on 4xx/5xx — or a non-image
mime type), `save_profile` still persists the document with all non-image
fields intact, removes the image field from the persisted document, returns a
non-empty user-facing warning, and completes normally (the write to the store
happens). -/
theorem claim_C1_partial_failure_preserves_text (cfg : S3Config) (t : Template)
    (g u : Nat) (profile : Doc) (world : String → FetchOutcome)
    (s : BackendState) (url : String)
    (hwf : assocWF profile)
    (hurl : dictGet profile t.Image.Name = some url) (hne : url ≠ "")
    (hown : pyStartsWith url cfg.sprobot_s3_endpoint = false)
    (hrej : world url = .exn ∨ world url = .content none ∨
      ∃ kind, world url = .content (some kind) ∧
        pyStartsWith kind.mime "image/" = false) :
    (save_profile cfg t g u profile world s).1.2 ≠ "" ∧
    assocGet (save_profile cfg t g u profile world s).2.2.1.store
        (profileS3Path g t.Name u) =
      some (save_profile cfg t g u profile world s).2.1 ∧
    (∀ k, k ≠ t.Image.Name →
      dictGet (save_profile cfg t g u profile world s).2.1 k = dictGet profile k) ∧
    dictGet (save_profile cfg t g u profile world s).2.1 t.Image.Name = none := by
  obtain ⟨hdoc, hstate, hwarn, -⟩ := save_profile_state cfg t g u profile world s
  obtain ⟨hnone, hmsg, -⟩ :=
    get_image_s3_url_rejected cfg t g u profile world url hurl hne hown hrej
  refine ⟨?_, ?_, ?_, ?_⟩
  · rw [hwarn]; exact hmsg
  · rw [hstate]
    exact assocGet_assocSet_self _ _ _
  · intro k hk
    rw [hdoc, hnone]
    exact assocGet_assocRemove_ne _ _ _ hk
  · rw [hdoc, hnone]
    exact assocGet_assocRemove_self _ _ hwf

/-- Witness for C1: the spec's concrete scenario — `Coffee Setup`, a profile
with a text field and an unreachable image URL — persists the text field,
drops the image and returns a warning. -/
theorem claim_C1_witness :
    (save_profile cfgEx ProfileTemplate 1 2
        [("Machine", "Lever X"), ("Gear Picture", "https://example.com/pic.png")]
        worldDown initialBackendState).1.2 ≠ "" ∧
    dictGet (save_profile cfgEx ProfileTemplate 1 2
        [("Machine", "Lever X"), ("Gear Picture", "https://example.com/pic.png")]
        worldDown initialBackendState).2.1 "Machine" = some "Lever X" ∧
    dictGet (save_profile cfgEx ProfileTemplate 1 2
        [("Machine", "Lever X"), ("Gear Picture", "https://example.com/pic.png")]
        worldDown initialBackendState).2.1 "Gear Picture" = none := by
  have h := claim_C1_partial_failure_preserves_text cfgEx ProfileTemplate 1 2
    [("Machine", "Lever X"), ("Gear Picture", "https://example.com/pic.png")]
    worldDown initialBackendState "https://example.com/pic.png"
    (by decide) (by decide) (by decide) (by decide) (Or.inl rfl)
  exact ⟨h.1, (h.2.2.1 "Machine" (by decide)).trans (by decide), h.2.2.2⟩

/-- C5: for an image URL already prefixed by the owned storage endpoint, the
relocation stage performs zero network calls (no fetch, no upload) and keeps
the URL; the persisted document is the input unchanged, the save's only
network event is the document `put_object`, and relocation of the persisted
document is again a no-op under any oracle — re-saving is a no-op every
time. -/
theorem claim_C5_idempotent_noop_relocation (cfg : S3Config) (t : Template)
    (g u : Nat) (profile : Doc) (world : String → FetchOutcome)
    (s : BackendState) (url : String)
    (hurl : dictGet profile t.Image.Name = some url) (hne : url ≠ "")
    (hown : pyStartsWith url cfg.sprobot_s3_endpoint = true) :
    get_image_s3_url cfg t g u profile world = (("", some url), []) ∧
    (save_profile cfg t g u profile world s).2.1 = profile ∧
    (save_profile cfg t g u profile world s).2.2.2 =
      [.s3PutObject cfg.sprobot_s3_bucket (profileS3Path g t.Name u)
        (jsonDumps profile)] ∧
    ∀ world', get_image_s3_url cfg t g u
        (save_profile cfg t g u profile world s).2.1 world' =
      (("", some url), []) := by
  have hgi := get_image_s3_url_owned cfg t g u profile world url hurl hne hown
  obtain ⟨hdoc, hstate, hwarn, hev⟩ := save_profile_state cfg t g u profile world s
  have hdoc' : (save_profile cfg t g u profile world s).2.1 = profile := by
    rw [hdoc, hgi]
    show savePersistedDoc t profile (some url) = profile
    unfold savePersistedDoc
    dsimp only
    rw [if_pos hne]
    exact assocSet_eq_self hurl
  refine ⟨hgi, hdoc', ?_, ?_⟩
  · rw [hev, hdoc']
    simp [hgi]
  · intro world'
    exact get_image_s3_url_owned cfg t g u _ world' url
      (by rw [hdoc']; exact hurl) hne hown

/-- Witness for C5: an owned URL (prefixed by the configured endpoint) is kept
verbatim, nothing is fetched or uploaded, and the persisted document equals
the input. -/
theorem claim_C5_witness :
    get_image_s3_url cfgEx ProfileTemplate 1 2
      [("Machine", "Lever X"),
       ("Gear Picture", "https://sfo2.digitaloceanspaces.com/profile-bot/images/1/Coffee Setup/2.png")]
      worldDown =
      (("", some "https://sfo2.digitaloceanspaces.com/profile-bot/images/1/Coffee Setup/2.png"), []) ∧
    (save_profile cfgEx ProfileTemplate 1 2
      [("Machine", "Lever X"),
       ("Gear Picture", "https://sfo2.digitaloceanspaces.com/profile-bot/images/1/Coffee Setup/2.png")]
      worldDown initialBackendState).2.1 =
      [("Machine", "Lever X"),
       ("Gear Picture", "https://sfo2.digitaloceanspaces.com/profile-bot/images/1/Coffee Setup/2.png")] := by
  have h := claim_C5_idempotent_noop_relocation cfgEx ProfileTemplate 1 2
    [("Machine", "Lever X"),
     ("Gear Picture", "https://sfo2.digitaloceanspaces.com/profile-bot/images/1/Coffee Setup/2.png")]
    worldDown initialBackendState
    "https://sfo2.digitaloceanspaces.com/profile-bot/images/1/Coffee Setup/2.png"
    (by decide) (by decide) (by decide)
  exact ⟨h.1, h.2.1⟩

/-- Frame property of the in-place image-field update done by `save_profile`:
keys other than the image field are untouched. -/
theorem savePersistedDoc_frame (t : Template) (profile : Doc)
    (iu : Option String) (k : String) (hk : k ≠ t.Image.Name) :
    dictGet (savePersistedDoc t profile iu) k = dictGet profile k := by
  unfold savePersistedDoc
  cases iu with
  | none => exact assocGet_assocRemove_ne _ _ _ hk
  | some url =>
    dsimp only
    by_cases hu : url ≠ ""
    · rw [if_pos hu]
      exact assocGet_assocSet_ne _ _ _ _ hk
    · rw [if_neg hu]
      exact assocGet_assocRemove_ne _ _ _ hk

/-- Counterexample to C3: the user previously saved `Machine = "La Pavoni"`
and now submits the edit modal with `Machine` cleared to the empty string (and
`Grinder` filled). The persisted document still contains the `"Machine"` key,
bound to `""`: the edit flow stores empty strings for non-image fields instead
of dropping them. -/
theorem claim_C3_counterexample :
    dictGet
      (save_profile cfgEx ProfileTemplate 1 2
        (on_submit_built_profile
          [("Machine", ""), ("Grinder", "Niche Zero"), ("Favorite Beans", ""),
           ("Pronouns", ""), ("Location", "")]
          none ProfileTemplate.Image.Name)
        worldDown
        ⟨[(profileS3Path 1 "Coffee Setup" 2, [("Machine", "La Pavoni")])],
         [], 1, 1⟩).2.1
      "Machine" = some "" ∧ some "" ≠ (none : Option String) := by
  exact ⟨rfl, by decide⟩

/-- C3 amended: only the image field is cleared when empty. A document built
by the edit modal keeps every submitted non-image `(label, value)` pair
verbatim — including empty strings, so a previously-set field submitted as
empty remains in the persisted document bound to `""` — while the image field,
when absent or empty in the built document, is removed from the persisted
document. -/
theorem claim_C3_amended_only_image_cleared (cfg : S3Config) (t : Template)
    (g u : Nat) (children : List (String × String)) (saved : Option String)
    (world : String → FetchOutcome) (s : BackendState) (l v : String)
    (hl : l ≠ t.Image.Name)
    (hv : dictGet (on_submit_built_profile children saved t.Image.Name) l = some v) :
    dictGet (save_profile cfg t g u
        (on_submit_built_profile children saved t.Image.Name) world s).2.1 l =
      some v ∧
    ((dictGet (on_submit_built_profile children saved t.Image.Name)
        t.Image.Name = none ∨
      dictGet (on_submit_built_profile children saved t.Image.Name)
        t.Image.Name = some "") →
      dictGet (save_profile cfg t g u
          (on_submit_built_profile children saved t.Image.Name) world s).2.1
        t.Image.Name = none) := by
  obtain ⟨hdoc, -, -, -⟩ := save_profile_state cfg t g u
    (on_submit_built_profile children saved t.Image.Name) world s
  constructor
  · rw [hdoc, savePersistedDoc_frame t _ _ l hl]
    exact hv
  · intro habs
    have hgi := get_image_s3_url_absent cfg t g u
      (on_submit_built_profile children saved t.Image.Name) world habs
    rw [hdoc, hgi]
    exact assocGet_assocRemove_self _ _ (on_submit_built_profile_wf children saved _)

/-- Witness for the amended C3: a cleared `Machine` field survives as an empty
string in the persisted document and the absent image field stays absent. -/
theorem claim_C3_witness :
    dictGet (save_profile cfgEx ProfileTemplate 1 2
        (on_submit_built_profile [("Machine", ""), ("Grinder", "Niche Zero")]
          none ProfileTemplate.Image.Name)
        worldDown initialBackendState).2.1 "Machine" = some "" ∧
    dictGet (save_profile cfgEx ProfileTemplate 1 2
        (on_submit_built_profile [("Machine", ""), ("Grinder", "Niche Zero")]
          none ProfileTemplate.Image.Name)
        worldDown initialBackendState).2.1 "Gear Picture" = none := by
  have h := claim_C3_amended_only_image_cleared cfgEx ProfileTemplate 1 2
    [("Machine", ""), ("Grinder", "Niche Zero")] none worldDown
    initialBackendState "Machine" "" (by decide) (by decide)
  exact ⟨h.1, h.2 (Or.inl (by decide))⟩

/-- C2: a successful `save_profile` followed by a `fetch_profile` of the same
key — across any interleaved operations that do not write (save, delete or
image-delete) that key — returns exactly the document the save persisted,
whether it is served from the cache or re-read from the store (the invariant
`SavedInv` covers both: interleaved traffic may evict the entry, after which
the fetch re-reads the store). -/
theorem claim_C2_save_then_fetch (cfg : S3Config) (t : Template) (g u : Nat)
    (profile : Doc) (world : String → FetchOutcome) (s : BackendState)
    (ops : List Op)
    (hops : ∀ op ∈ ops, op.isMutation = true →
      op.key ≠ ((t.Name, g, u) : CacheKey) ∧
      op.path ≠ profileS3Path g t.Name u) :
    (fetch_profile cfg t g u
        (runOps cfg (save_profile cfg t g u profile world s).2.2.1 ops)).1 =
      .ok (save_profile cfg t g u profile world s).2.1 := by
  obtain ⟨-, hstate, -, -⟩ := save_profile_state cfg t g u profile world s
  have hinv : SavedInv t.Name g u (save_profile cfg t g u profile world s).2.1
      (save_profile cfg t g u profile world s).2.2.1 := by
    rw [hstate]
    exact ⟨assocGet_assocSet_self _ _ _, Or.inr (cacheLookup_cachePut_self _ _ _)⟩
  exact fetch_profile_of_SavedInv cfg t g u _ _
    (SavedInv_runOps cfg ops t.Name g u _ _ hops hinv)

/-- Witness for C2: a save of `Coffee Setup` for user 2, followed by a save
for another key, a read of this key and a delete of another key, still fetches
exactly the persisted document. -/
theorem claim_C2_witness :
    (fetch_profile cfgEx ProfileTemplate 1 2
        (runOps cfgEx
          (save_profile cfgEx ProfileTemplate 1 2 [("Machine", "Lever X")]
            worldDown initialBackendState).2.2.1
          [Op.opSave RoasterTemplate 1 3 [("Website", "example.org")] worldDown,
           Op.opFetch ProfileTemplate 1 2,
           Op.opDelete RoasterTemplate 1 2])).1 =
      .ok [("Machine", "Lever X")] := by
  have h := claim_C2_save_then_fetch cfgEx ProfileTemplate 1 2
    [("Machine", "Lever X")] worldDown initialBackendState
    [Op.opSave RoasterTemplate 1 3 [("Website", "example.org")] worldDown,
     Op.opFetch ProfileTemplate 1 2,
     Op.opDelete RoasterTemplate 1 2]
    (by intro op hop
        rcases List.mem_cons.mp hop with h1 | hop
        · subst h1; exact fun _ => ⟨by decide, by decide⟩
        rcases List.mem_cons.mp hop with h1 | hop
        · subst h1; exact fun hcontra => absurd hcontra (by decide)
        rcases List.mem_cons.mp hop with h1 | hop
        · subst h1; exact fun _ => ⟨by decide, by decide⟩
        · exact absurd hop (by simp))
  exact h.trans rfl

/-- C7: after `delete_profile` completes on a key, a later `fetch_profile` of
that key — across any interleaved operations that do not write the key —
returns the normalized `KeyError("User profile not found")` rather than any
stale cached or stored document; and that `KeyError` is a distinct error kind
from a generic failure (`PyErr.otherError`), so callers can special-case it. -/
theorem claim_C7_delete_then_fetch (cfg : S3Config) (t : Template) (g u : Nat)
    (s : BackendState) (ops : List Op)
    (hwfStore : assocWF s.store) (hwfCache : assocWF s.cache)
    (hops : ∀ op ∈ ops, op.isMutation = true →
      op.key ≠ ((t.Name, g, u) : CacheKey) ∧
      op.path ≠ profileS3Path g t.Name u) :
    (fetch_profile cfg t g u
        (runOps cfg (delete_profile cfg t g u s).1 ops)).1 =
      .error (.keyError "User profile not found") ∧
    ∀ m m', (PyErr.keyError m : PyErr) ≠ PyErr.otherError m' := by
  have hinv : GoneInv t.Name g u (delete_profile cfg t g u s).1 :=
    ⟨assocGet_assocRemove_self _ _ hwfStore,
     assocGet_assocRemove_self _ _ hwfCache⟩
  refine ⟨fetch_profile_of_GoneInv cfg t g u _
    (GoneInv_runOps cfg ops t.Name g u _ hops hinv), ?_⟩
  intro m m' h
  exact PyErr.noConfusion h

/-- Witness for C7: delete a stored-and-cached profile, interleave traffic on
another key and a read of this key, and the final fetch reports not-found. -/
theorem claim_C7_witness :
    (fetch_profile cfgEx ProfileTemplate 1 2
        (runOps cfgEx
          (delete_profile cfgEx ProfileTemplate 1 2
            ⟨[(profileS3Path 1 "Coffee Setup" 2, [("Machine", "Lever X")])],
             [(("Coffee Setup", 1, 2), [("Machine", "Lever X")])], 1, 1⟩).1
          [Op.opFetch ProfileTemplate 1 2,
           Op.opSave RoasterTemplate 1 2 [("Website", "example.org")] worldDown])).1 =
      .error (.keyError "User profile not found") := by
  have h := claim_C7_delete_then_fetch cfgEx ProfileTemplate 1 2
    ⟨[(profileS3Path 1 "Coffee Setup" 2, [("Machine", "Lever X")])],
     [(("Coffee Setup", 1, 2), [("Machine", "Lever X")])], 1, 1⟩
    [Op.opFetch ProfileTemplate 1 2,
     Op.opSave RoasterTemplate 1 2 [("Website", "example.org")] worldDown]
    (by decide) (by decide)
    (by intro op hop
        rcases List.mem_cons.mp hop with h1 | hop
        · subst h1; exact fun hcontra => absurd hcontra (by decide)
        rcases List.mem_cons.mp hop with h1 | hop
        · subst h1; exact fun _ => ⟨by decide, by decide⟩
        · exact absurd hop (by simp))
  exact h.1

/-- C6: the confirmed image-only deletion flow. Part (a): if the fetched
profile has a set image field and at least one other field, the flow persists
exactly the document without the image key — every other field unchanged — and
ends `Deleted`. Part (b): if the image field was the only field, the whole
profile is deleted from the store instead of persisting an empty document.
Part (c): if no profile exists, the flow treats the `KeyError` as
already-deleted and stops without touching anything beyond the fetch. -/
theorem claim_C6_delete_image_only (cfg : S3Config) (t : Template) (g u : Nat)
    (world : String → FetchOutcome) (s : BackendState) :
    (∀ p s1 ev imgUrl k' v',
      fetch_profile cfg t g u s = (.ok p, s1, ev) →
      assocWF p →
      dictGet p t.Image.Name = some imgUrl →
      k' ≠ t.Image.Name → dictGet p k' = some v' →
      (delete_profile_image cfg t g u world s).2.1 = .Deleted ∧
      assocGet (delete_profile_image cfg t g u world s).1.store
          (profileS3Path g t.Name u) = some (dictDel p t.Image.Name) ∧
      dictGet (dictDel p t.Image.Name) t.Image.Name = none ∧
      (∀ k, k ≠ t.Image.Name →
        dictGet (dictDel p t.Image.Name) k = dictGet p k)) ∧
    (∀ v s1 ev,
      assocWF s.store →
      fetch_profile cfg t g u s = (.ok [(t.Image.Name, v)], s1, ev) →
      (delete_profile_image cfg t g u world s).2.1 = .Deleted ∧
      assocGet (delete_profile_image cfg t g u world s).1.store
          (profileS3Path g t.Name u) = none) ∧
    (∀ e s1 ev,
      fetch_profile cfg t g u s = (.error e, s1, ev) →
      (delete_profile_image cfg t g u world s).2.1 = .Deleted ∧
      (delete_profile_image cfg t g u world s).1 = s1) := by
  refine ⟨?_, ?_, ?_⟩
  · intro p s1 ev imgUrl k' v' hf hwf himg hk' hv'
    have hcontains : dictContains p t.Image.Name = true := by
      simp [dictContains, himg]
    have hpne : p ≠ [] := by
      intro hnil
      rw [hnil] at hv'
      exact Option.noConfusion hv'
    have hdelne : dictDel p t.Image.Name ≠ [] :=
      dictDel_ne_nil p t.Image.Name k' v' hk' hv'
    have himgnone : dictGet (dictDel p t.Image.Name) t.Image.Name = none :=
      assocGet_assocRemove_self _ _ hwf
    -- the inner save sees no image field, so relocation is silent and the
    -- persisted document is exactly `dictDel p image`
    have hgi := get_image_s3_url_absent cfg t g u (dictDel p t.Image.Name)
      world (Or.inl himgnone)
    obtain ⟨hdoc, hstate, hwarn, -⟩ :=
      save_profile_state cfg t g u (dictDel p t.Image.Name) world s1
    have hdoc' : (save_profile cfg t g u (dictDel p t.Image.Name) world s1).2.1 =
        dictDel p t.Image.Name := by
      rw [hdoc, hgi]
      exact assocRemove_eq_self himgnone
    have hwarn' : (save_profile cfg t g u (dictDel p t.Image.Name) world s1).1.2 = "" := by
      rw [hwarn, hgi]
    unfold delete_profile_image
    rw [hf]
    rcases hsv : save_profile cfg t g u (dictDel p t.Image.Name) world s1
      with ⟨⟨ww, err⟩, p2, s2, ev2⟩
    have herr : err = "" := by
      rw [hsv] at hwarn'
      exact hwarn'
    have hupd :
        (if p ≠ [] ∧ dictContains p t.Image.Name
         then dictDel p t.Image.Name else p) = dictDel p t.Image.Name := by
      rw [if_pos ⟨hpne, hcontains⟩]
    have hstore2 : assocGet
        (save_profile cfg t g u (dictDel p t.Image.Name) world s1).2.2.1.store
        (profileS3Path g t.Name u) = some (dictDel p t.Image.Name) := by
      rw [hstate]
      show assocGet (assocSet s1.store (profileS3Path g t.Name u) _)
        (profileS3Path g t.Name u) = _
      rw [assocGet_assocSet_self, hdoc']
    rw [hsv] at hstore2
    refine ⟨?_, ?_, himgnone, fun k hk => assocGet_assocRemove_ne _ _ _ hk⟩
    · simp [hupd, hsv, herr, hdelne]
    · simpa [hupd, hsv, herr, hdelne] using hstore2
  · intro v s1 ev hwfStore hf
    have hs1store : s1.store = s.store := by
      have := (fetch_profile_state_cases cfg t g u s).1
      rw [hf] at this
      exact this
    unfold delete_profile_image
    rw [hf]
    have hupd :
        (if ([(t.Image.Name, v)] : Doc) ≠ [] ∧
            dictContains [(t.Image.Name, v)] t.Image.Name
         then dictDel [(t.Image.Name, v)] t.Image.Name
         else [(t.Image.Name, v)]) = [] := by
      rw [if_pos ⟨by simp, by simp [dictContains, dictGet, assocGet]⟩]
      simp [dictDel, assocRemove]
    simp only [hupd, ne_eq, not_true_eq_false, if_false]
    refine ⟨by trivial, ?_⟩
    show assocGet (assocRemove s1.store (profileS3Path g t.Name u))
      (profileS3Path g t.Name u) = none
    rw [hs1store]
    exact assocGet_assocRemove_self _ _ hwfStore
  · intro e s1 ev hf
    unfold delete_profile_image
    rw [hf]
    exact ⟨rfl, rfl⟩

/-- Witness for C6: (a) a cached profile with an image and a `Machine` field
keeps `Machine` and loses the image, (b) an image-only profile is deleted from
the store outright, (c) deleting the image of a nonexistent profile completes
as `Deleted`. -/
theorem claim_C6_witness :
    ((delete_profile_image cfgEx ProfileTemplate 1 2 worldDown
        ⟨[("profiles/1/Coffee Setup/2.json",
           [("Gear Picture", "https://example.com/pic.png"), ("Machine", "Lever X")])],
         [(("Coffee Setup", 1, 2),
           [("Gear Picture", "https://example.com/pic.png"), ("Machine", "Lever X")])],
         1, 1⟩).2.1 = .Deleted ∧
     assocGet (delete_profile_image cfgEx ProfileTemplate 1 2 worldDown
        ⟨[("profiles/1/Coffee Setup/2.json",
           [("Gear Picture", "https://example.com/pic.png"), ("Machine", "Lever X")])],
         [(("Coffee Setup", 1, 2),
           [("Gear Picture", "https://example.com/pic.png"), ("Machine", "Lever X")])],
         1, 1⟩).1.store (profileS3Path 1 "Coffee Setup" 2) =
       some [("Machine", "Lever X")]) ∧
    ((delete_profile_image cfgEx ProfileTemplate 1 2 worldDown
        ⟨[("profiles/1/Coffee Setup/2.json", [("Gear Picture", "https://example.com/pic.png")])],
         [(("Coffee Setup", 1, 2), [("Gear Picture", "https://example.com/pic.png")])],
         1, 1⟩).2.1 = .Deleted ∧
     assocGet (delete_profile_image cfgEx ProfileTemplate 1 2 worldDown
        ⟨[("profiles/1/Coffee Setup/2.json", [("Gear Picture", "https://example.com/pic.png")])],
         [(("Coffee Setup", 1, 2), [("Gear Picture", "https://example.com/pic.png")])],
         1, 1⟩).1.store (profileS3Path 1 "Coffee Setup" 2) = none) ∧
    (delete_profile_image cfgEx ProfileTemplate 1 2 worldDown
        initialBackendState).2.1 = .Deleted := by
  refine ⟨?_, ?_, ?_⟩
  · have h := (claim_C6_delete_image_only cfgEx ProfileTemplate 1 2 worldDown
      ⟨[("profiles/1/Coffee Setup/2.json",
         [("Gear Picture", "https://example.com/pic.png"), ("Machine", "Lever X")])],
       [(("Coffee Setup", 1, 2),
         [("Gear Picture", "https://example.com/pic.png"), ("Machine", "Lever X")])],
       1, 1⟩).1
      [("Gear Picture", "https://example.com/pic.png"), ("Machine", "Lever X")]
      ⟨[("profiles/1/Coffee Setup/2.json",
         [("Gear Picture", "https://example.com/pic.png"), ("Machine", "Lever X")])],
       [(("Coffee Setup", 1, 2),
         [("Gear Picture", "https://example.com/pic.png"), ("Machine", "Lever X")])],
       2, 1⟩
      [] "https://example.com/pic.png" "Machine" "Lever X"
      rfl (by decide) (by decide) (by decide) (by decide)
    exact ⟨h.1, h.2.1⟩
  · have h := (claim_C6_delete_image_only cfgEx ProfileTemplate 1 2 worldDown
      ⟨[("profiles/1/Coffee Setup/2.json", [("Gear Picture", "https://example.com/pic.png")])],
       [(("Coffee Setup", 1, 2), [("Gear Picture", "https://example.com/pic.png")])],
       1, 1⟩).2.1
      "https://example.com/pic.png"
      ⟨[("profiles/1/Coffee Setup/2.json", [("Gear Picture", "https://example.com/pic.png")])],
       [(("Coffee Setup", 1, 2), [("Gear Picture", "https://example.com/pic.png")])],
       2, 1⟩
      [] (by decide) rfl
    exact h
  · exact ((claim_C6_delete_image_only cfgEx ProfileTemplate 1 2 worldDown
      initialBackendState).2.2
      (.keyError "User profile not found") ⟨[], [], 2, 2⟩
      [.s3GetObject "profile-bot" (profileS3Path 1 "Coffee Setup" 2)] rfl).1

/-- Any error `fetch_profile` ever returns is the normalized profile-not-found
`KeyError`: no per-request code path reports a configuration problem. -/
theorem fetch_profile_error_shape (cfg : S3Config) (t : Template) (g u : Nat)
    (s : BackendState) (e : PyErr)
    (h : (fetch_profile cfg t g u s).1 = .error e) :
    e = .keyError "User profile not found" := by
  unfold fetch_profile get_from_cache at h
  rcases hl : cacheLookup s.cache (t.Name, g, u) with _ | p
  · rcases hs : assocGet s.store (profileS3Path g t.Name u) with _ | res
    · simp [hl, hs] at h
      exact h.symm
    · simp [hl, hs] at h
  · by_cases hp : p = []
    · subst hp
      rcases hs : assocGet s.store (profileS3Path g t.Name u) with _ | res
      · simp [hl, hs] at h
        exact h.symm
      · simp [hl, hs] at h
    · simp [hl, hp] at h

/-- C9: backend construction fails with a `KeyError` exactly when one of the
four required configuration values (access key, secret, endpoint, bucket) is
absent or empty in the environment; when all four are present it succeeds; and
no per-request operation reports missing configuration — the only error
`fetch_profile` ever returns is the profile-not-found `KeyError` (and the
save/delete operations of the model return no error at all). -/
theorem claim_C9_config_required (env : List (String × String)) :
    ((∃ cfg, S3Backend_init env = .ok cfg) ↔
      (envGet env "SPROBOT_S3_KEY" ≠ "" ∧ envGet env "SPROBOT_S3_SECRET" ≠ "" ∧
       envGet env "SPROBOT_S3_ENDPOINT" ≠ "" ∧
       envGet env "SPROBOT_S3_BUCKET" ≠ "")) ∧
    (¬(envGet env "SPROBOT_S3_KEY" ≠ "" ∧ envGet env "SPROBOT_S3_SECRET" ≠ "" ∧
       envGet env "SPROBOT_S3_ENDPOINT" ≠ "" ∧
       envGet env "SPROBOT_S3_BUCKET" ≠ "") →
      ∃ m, S3Backend_init env = .error (.keyError m)) ∧
    (∀ cfg t g u s e, (fetch_profile cfg t g u s).1 = .error e →
      e = .keyError "User profile not found") := by
  by_cases h1 : envGet env "SPROBOT_S3_KEY" = "" <;>
  by_cases h2 : envGet env "SPROBOT_S3_SECRET" = "" <;>
  by_cases h3 : envGet env "SPROBOT_S3_ENDPOINT" = "" <;>
  by_cases h4 : envGet env "SPROBOT_S3_BUCKET" = "" <;>
  refine ⟨?_, ?_, fun cfg t g u s e h => fetch_profile_error_shape cfg t g u s e h⟩ <;>
  simp [S3Backend_init, h1, h2, h3, h4]

/-- Witness for C9: the empty environment makes construction fail with the
first missing-variable `KeyError`, and a fetch on an empty backend reports the
(distinct) profile-not-found `KeyError`. -/
theorem claim_C9_witness :
    S3Backend_init [] = .error (.keyError "SPROBOT_S3_KEY env var is undefined!") ∧
    (fetch_profile cfgEx ProfileTemplate 1 2 initialBackendState).1 =
      .error (.keyError "User profile not found") := by
  refine ⟨rfl, ?_⟩
  have h := (claim_C9_config_required []).2.2 cfgEx ProfileTemplate 1 2
    initialBackendState (.keyError "User profile not found") rfl
  exact h ▸ rfl

/-- C8: storage layout. Part (1): for any template whose name is nonempty and
neither starts nor ends with `/` (true of every deployed template), the
document key is exactly `profiles/{guild_id}/{templateName}/{user_id}.json`.
Part (2): the save emits exactly one `put_object`, under that key, whose body
is the `json.dumps` (UTF-8 JSON) serialization of the persisted field map.
Part (3): a successful relocation uploads to exactly
`images/{guild_id}/{templateName}/{user_id}.{ext}` where `ext` is the
extension reported by content-sniffing the fetched bytes — the key never
consults the source URL for the extension. -/
theorem claim_C8_key_derivation (cfg : S3Config) (t : Template) (g u : Nat)
    (profile : Doc) (world : String → FetchOutcome) (s : BackendState)
    (url : String) (kind : SniffKind)
    (h1 : t.Name ≠ "") (h2 : t.Name.data.head? ≠ some '/')
    (h3 : t.Name.data.getLast? ≠ some '/') :
    profileS3Path g t.Name u =
      "profiles" ++ "/" ++ Nat.repr g ++ "/" ++ t.Name ++ "/" ++
        Nat.repr u ++ ".json" ∧
    (save_profile cfg t g u profile world s).2.2.2 =
      (get_image_s3_url cfg t g u profile world).2 ++
        [.s3PutObject cfg.sprobot_s3_bucket (profileS3Path g t.Name u)
          (jsonDumps (save_profile cfg t g u profile world s).2.1)] ∧
    (dictGet profile t.Image.Name = some url → url ≠ "" →
      pyStartsWith url cfg.sprobot_s3_endpoint = false →
      world url = .content (some kind) →
      pyStartsWith kind.mime "image/" = true →
      (get_image_s3_url cfg t g u profile world).2 =
        [.httpGet url,
         .s3Upload cfg.sprobot_s3_bucket
           ("images" ++ "/" ++ Nat.repr g ++ "/" ++ t.Name ++ "/" ++
             Nat.repr u ++ "." ++ kind.extension),
         .s3PutObjectAcl cfg.sprobot_s3_bucket
           ("images" ++ "/" ++ Nat.repr g ++ "/" ++ t.Name ++ "/" ++
             Nat.repr u ++ "." ++ kind.extension)]) := by
  refine ⟨profileS3Path_eq g u t.Name h1 h2 h3,
    (save_profile_state cfg t g u profile world s).2.2.2, ?_⟩
  intro hurl hne hown hw hmime
  have hgi := get_image_s3_url_success cfg t g u profile world url kind
    hurl hne hown hw hmime
  rw [congrArg Prod.snd hgi]
  rw [imageS3Path_eq g u t.Name kind.extension h1 h2 h3]

/-- Witness for C8 at the production guild id: the concrete document key and
the concrete image key (sniffed as PNG) match the spec's layout literally. -/
theorem claim_C8_witness :
    profileS3Path 726985544038612993 "Coffee Setup" 42 =
      "profiles/726985544038612993/Coffee Setup/42.json" ∧
    (get_image_s3_url cfgEx ProfileTemplate 1 2
        [("Gear Picture", "https://example.com/x.jpg-called-but-really-png")]
        worldPng).2 =
      [.httpGet "https://example.com/x.jpg-called-but-really-png",
       .s3Upload "profile-bot" "images/1/Coffee Setup/2.png",
       .s3PutObjectAcl "profile-bot" "images/1/Coffee Setup/2.png"] := by
  have h := claim_C8_key_derivation cfgEx ProfileTemplate 726985544038612993 42
    [("Gear Picture", "https://example.com/x.jpg-called-but-really-png")]
    worldPng initialBackendState
    "https://example.com/x.jpg-called-but-really-png" ⟨"image/png", "png"⟩
    (by decide) (by decide) (by decide)
  have h' := claim_C8_key_derivation cfgEx ProfileTemplate 1 2
    [("Gear Picture", "https://example.com/x.jpg-called-but-really-png")]
    worldPng initialBackendState
    "https://example.com/x.jpg-called-but-really-png" ⟨"image/png", "png"⟩
    (by decide) (by decide) (by decide)
  constructor
  · exact h.1.trans (by decide)
  · exact (h'.2.2 (by decide) (by decide) (by decide) rfl (by decide)).trans (by decide)

/-- Unfolding lemma: the reference-model save writes the serialized snapshot
to the store, mutates the caller's object in place and stores the caller's
address itself in the cache. -/
theorem save_profile_ref_state (cfg : S3Config) (t : Template) (g u : Nat)
    (a : Nat) (world : String → FetchOutcome) (s : RefState) :
    (save_profile_ref cfg t g u a world s).2.1 =
      ⟨assocSet s.store (profileS3Path g t.Name u)
         (savePersistedDoc t (heapGet s.heap a)
           (get_image_s3_url cfg t g u (heapGet s.heap a) world).1.2),
       cachePut s.cache (t.Name, g, u) a,
       heapSet s.heap a
         (savePersistedDoc t (heapGet s.heap a)
           (get_image_s3_url cfg t g u (heapGet s.heap a) world).1.2)⟩ := by
  rcases hgi : get_image_s3_url cfg t g u (heapGet s.heap a) world with ⟨⟨e, iu⟩, ev⟩
  simp [save_profile_ref, hgi]

/-- C10: `save_profile` mutates the caller's dict in place. After the save
returns, the object at the caller's address has the image field replaced by
the newly hosted URL on successful relocation, is unchanged when the URL was
already owned, and has the image field deleted when relocation was rejected or
the field was empty or absent; no other key of the caller's dict changes. -/
theorem claim_C10_save_mutates_caller_doc (cfg : S3Config) (t : Template)
    (g u : Nat) (a : Nat) (world : String → FetchOutcome) (s : RefState)
    (hwf : assocWF (heapGet s.heap a)) :
    (∀ k, k ≠ t.Image.Name →
      dictGet (heapGet (save_profile_ref cfg t g u a world s).2.1.heap a) k =
        dictGet (heapGet s.heap a) k) ∧
    (∀ url kind,
      dictGet (heapGet s.heap a) t.Image.Name = some url → url ≠ "" →
      pyStartsWith url cfg.sprobot_s3_endpoint = false →
      world url = .content (some kind) →
      pyStartsWith kind.mime "image/" = true →
      dictGet (heapGet (save_profile_ref cfg t g u a world s).2.1.heap a)
          t.Image.Name =
        some (pyUrljoin cfg.sprobot_s3_endpoint
          (pyUrljoin (cfg.sprobot_s3_bucket ++ "/")
            (pyQuote (imageS3Path g t.Name u kind.extension))))) ∧
    ((get_image_s3_url cfg t g u (heapGet s.heap a) world).1.2 = none →
      dictGet (heapGet (save_profile_ref cfg t g u a world s).2.1.heap a)
        t.Image.Name = none) ∧
    (∀ url,
      dictGet (heapGet s.heap a) t.Image.Name = some url → url ≠ "" →
      pyStartsWith url cfg.sprobot_s3_endpoint = true →
      heapGet (save_profile_ref cfg t g u a world s).2.1.heap a =
        heapGet s.heap a) := by
  have hstate := save_profile_ref_state cfg t g u a world s
  rw [hstate]
  dsimp only
  rw [heapGet_heapSet_self]
  refine ⟨?_, ?_, ?_, ?_⟩
  · intro k hk
    exact savePersistedDoc_frame t _ _ k hk
  · intro url kind hurl hne hown hw hmime
    have hgi := get_image_s3_url_success cfg t g u (heapGet s.heap a) world
      url kind hurl hne hown hw hmime
    rw [congrArg (fun r => r.1.2) hgi]
    show dictGet (savePersistedDoc t (heapGet s.heap a) (some _)) t.Image.Name = _
    unfold savePersistedDoc
    dsimp only
    rw [if_pos (show pyUrljoin cfg.sprobot_s3_endpoint
        (pyUrljoin (cfg.sprobot_s3_bucket ++ "/")
          (pyQuote (imageS3Path g t.Name u kind.extension))) ≠ "" from
      strAppend_ne_empty _ _ (strAppend_ne_empty_left _ _
        (strAppend_ne_empty _ _ (by decide))))]
    exact assocGet_assocSet_self _ _ _
  · intro hnone
    rw [hnone]
    exact assocGet_assocRemove_self _ _ hwf
  · intro url hurl hne hown
    have hgi := get_image_s3_url_owned cfg t g u (heapGet s.heap a) world
      url hurl hne hown
    rw [congrArg (fun r => r.1.2) hgi]
    show savePersistedDoc t (heapGet s.heap a) (some url) = heapGet s.heap a
    unfold savePersistedDoc
    dsimp only
    rw [if_pos hne]
    exact assocSet_eq_self hurl

/-- Witness for C10: a successful relocation rewrites the caller's dict in
place with the hosted URL (percent-encoded key) and leaves `Machine` alone; a
failing fetch deletes the image field from the caller's dict. -/
theorem claim_C10_witness :
    dictGet (heapGet (save_profile_ref cfgEx ProfileTemplate 1 2 0 worldPng
        ⟨[], [],
         ⟨[(0, [("Gear Picture", "https://example.com/p"), ("Machine", "M")])], 1⟩⟩).2.1.heap 0)
      "Gear Picture" =
      some "https://sfo2.digitaloceanspaces.com/profile-bot/images/1/Coffee%20Setup/2.png" ∧
    dictGet (heapGet (save_profile_ref cfgEx ProfileTemplate 1 2 0 worldPng
        ⟨[], [],
         ⟨[(0, [("Gear Picture", "https://example.com/p"), ("Machine", "M")])], 1⟩⟩).2.1.heap 0)
      "Machine" = some "M" ∧
    dictGet (heapGet (save_profile_ref cfgEx ProfileTemplate 1 2 0 worldDown
        ⟨[], [],
         ⟨[(0, [("Gear Picture", "https://example.com/p"), ("Machine", "M")])], 1⟩⟩).2.1.heap 0)
      "Gear Picture" = none := by
  have hPng := claim_C10_save_mutates_caller_doc cfgEx ProfileTemplate 1 2 0 worldPng
    ⟨[], [], ⟨[(0, [("Gear Picture", "https://example.com/p"), ("Machine", "M")])], 1⟩⟩
    (by decide)
  have hDown := claim_C10_save_mutates_caller_doc cfgEx ProfileTemplate 1 2 0 worldDown
    ⟨[], [], ⟨[(0, [("Gear Picture", "https://example.com/p"), ("Machine", "M")])], 1⟩⟩
    (by decide)
  refine ⟨?_, ?_, ?_⟩
  · exact (hPng.2.1 "https://example.com/p" ⟨"image/png", "png"⟩
      (by decide) (by decide) (by decide) rfl (by decide)).trans (by decide)
  · exact (hPng.1 "Machine" (by decide)).trans (by decide)
  · exact hDown.2.2.1 (by decide)

/-- Counterexample to C4: the cache does not hold defensively-copied
documents. `save_profile` stores the caller's own dict object (address 0) in
the cache; when the caller mutates its dict after the save returns, the cache
entry's contents change with it, and the next fetch of the key serves the
mutated document instead of the persisted `{Machine: "Lever X"}`. -/
theorem claim_C4_counterexample :
    cacheLookup (save_profile_ref cfgEx ProfileTemplate 1 2 0 worldDown
        ⟨[], [], ⟨[(0, [("Machine", "Lever X")])], 1⟩⟩).2.1.cache
      ("Coffee Setup", 1, 2) = some 0 ∧
    assocGet (save_profile_ref cfgEx ProfileTemplate 1 2 0 worldDown
        ⟨[], [], ⟨[(0, [("Machine", "Lever X")])], 1⟩⟩).2.1.store
      (profileS3Path 1 "Coffee Setup" 2) = some [("Machine", "Lever X")] ∧
    (fetch_profile_ref cfgEx ProfileTemplate 1 2
        ⟨(save_profile_ref cfgEx ProfileTemplate 1 2 0 worldDown
            ⟨[], [], ⟨[(0, [("Machine", "Lever X")])], 1⟩⟩).2.1.store,
         (save_profile_ref cfgEx ProfileTemplate 1 2 0 worldDown
            ⟨[], [], ⟨[(0, [("Machine", "Lever X")])], 1⟩⟩).2.1.cache,
         heapSet (save_profile_ref cfgEx ProfileTemplate 1 2 0 worldDown
            ⟨[], [], ⟨[(0, [("Machine", "Lever X")])], 1⟩⟩).2.1.heap
           0 [("Machine", "EVIL")]⟩).1 = .ok 1 ∧
    heapGet (fetch_profile_ref cfgEx ProfileTemplate 1 2
        ⟨(save_profile_ref cfgEx ProfileTemplate 1 2 0 worldDown
            ⟨[], [], ⟨[(0, [("Machine", "Lever X")])], 1⟩⟩).2.1.store,
         (save_profile_ref cfgEx ProfileTemplate 1 2 0 worldDown
            ⟨[], [], ⟨[(0, [("Machine", "Lever X")])], 1⟩⟩).2.1.cache,
         heapSet (save_profile_ref cfgEx ProfileTemplate 1 2 0 worldDown
            ⟨[], [], ⟨[(0, [("Machine", "Lever X")])], 1⟩⟩).2.1.heap
           0 [("Machine", "EVIL")]⟩).2.1.heap 1 = [("Machine", "EVIL")] ∧
    [("Machine", "EVIL")] ≠ [("Machine", "Lever X")] := by
  exact ⟨rfl, rfl, rfl, rfl, by decide⟩

/-- C4 corrected/amended: only reads served from the cache are defensively
copied. A cache-hit fetch allocates a fresh object at the allocation
watermark and returns its address, so mutating the returned copy never
changes the cached object's contents; the cache entry itself keeps pointing
at the original object. (The aliasing of the entry stored by `save_profile`
and by a fetch miss is what the counterexample exhibits.) -/
theorem claim_C4_amended_cache_hit_defensive (cfg : S3Config) (t : Template)
    (g u : Nat) (s : RefState) (a : Nat)
    (hwf : RefStateWF s)
    (hc : cacheLookup s.cache (t.Name, g, u) = some a)
    (hne : heapGet s.heap a ≠ []) :
    (fetch_profile_ref cfg t g u s).1 = .ok s.heap.next ∧
    s.heap.next ≠ a ∧
    cacheLookup (fetch_profile_ref cfg t g u s).2.1.cache (t.Name, g, u) =
      some a ∧
    ∀ d', heapGet
        (heapSet (fetch_profile_ref cfg t g u s).2.1.heap s.heap.next d') a =
      heapGet s.heap a := by
  have haddr : a < s.heap.next := hwf.2 _ (mem_of_assocGet_eq_some hc)
  have hana : s.heap.next ≠ a := by omega
  unfold fetch_profile_ref
  dsimp only
  rw [hc]
  dsimp only
  rw [if_pos hne]
  refine ⟨rfl, hana, ?_, ?_⟩
  · rw [cacheLookup_cacheTouch_self]
    exact hc
  · intro d'
    rw [heapGet_heapSet_ne _ _ _ _ (by omega)]
    exact heapGet_heapAlloc_old s.heap _ a haddr

/-- Witness for the amended C4: a cache-hit fetch from a one-entry cache
returns the fresh address 1; overwriting that copy leaves the cached object
at address 0 untouched. -/
theorem claim_C4_witness :
    (fetch_profile_ref cfgEx ProfileTemplate 1 2
        ⟨[], [(("Coffee Setup", 1, 2), 0)],
         ⟨[(0, [("Machine", "Lever X")])], 1⟩⟩).1 = .ok 1 ∧
    heapGet (heapSet (fetch_profile_ref cfgEx ProfileTemplate 1 2
        ⟨[], [(("Coffee Setup", 1, 2), 0)],
         ⟨[(0, [("Machine", "Lever X")])], 1⟩⟩).2.1.heap
        1 [("Machine", "EVIL")]) 0 = [("Machine", "Lever X")] := by
  have h := claim_C4_amended_cache_hit_defensive cfgEx ProfileTemplate 1 2
    ⟨[], [(("Coffee Setup", 1, 2), 0)], ⟨[(0, [("Machine", "Lever X")])], 1⟩⟩ 0
    (by decide) rfl (by decide)
  exact ⟨h.1, (h.2.2.2 [("Machine", "EVIL")]).trans rfl⟩

end Sprobot
